import Mathlib

/-!
Verification development for the smart-point time-classification and
tax-settlement engine.

The TypeScript sources are shallowly embedded as executable Lean
definitions.  Conventions used throughout:

* JavaScript strings are modelled as `List Char` (`JsStr`); template
  literals become list concatenations.
* JavaScript numbers are modelled as `ℚ` where the source manipulates
  monetary or fractional values, as `ℕ` for minute counts and indices and
  as `ℤ` where the source can go negative.  The numeric tokens this system
  feeds to `Number(...)` are unsigned decimal integers; `jsNumber` returns
  `none` for NaN inputs.
* `null`/`undefined` arguments are modelled with `Option`; a thrown
  exception is an `Except.error`.
* ISO `YYYY-MM-DD` date strings handled through date-fns `parseISO` /
  `getDay` / `isValid` are modelled by the `DateT` triple together with
  `isValidDate` and the Gregorian weekday function `getDayJS`
  (lexicographic order on the triple coincides with `localeCompare` order
  of the zero-padded strings).
* Monetary float fields of the overtime-engine result (weekly values,
  rates) are outside every claim's scope and are omitted from the embedded
  result record; all minute-count fields are embedded exactly.
-/

namespace SmartPoint

/-- JavaScript strings are modelled as lists of characters. -/
abbrev JsStr := List Char

/-- Fuelled digit expansion; the fuel bounds the digit count so the
recursion is structural. -/
def natDigitsFuel : ℕ → ℕ → JsStr
  | 0, _ => []
  | fuel + 1, n =>
    if n < 10 then [Char.ofNat (48 + n)]
    else natDigitsFuel fuel (n / 10) ++ [Char.ofNat (48 + n % 10)]

/-- Decimal digits of a natural number, most significant first
(models JavaScript `Number.prototype.toString`). -/
def natDigits (n : ℕ) : JsStr := natDigitsFuel (n + 1) n

/-- Models `String.prototype.padStart(2, '0')`. -/
def padStart2 (s : JsStr) : JsStr := List.replicate (2 - s.length) '0' ++ s

/-- Models `n.toString().padStart(2, '0')`. -/
def pad2 (n : ℕ) : JsStr := padStart2 (natDigits n)

/-- Models `String.prototype.split(sep)`. -/
def splitOnChar (sep : Char) : JsStr → List JsStr
  | [] => [[]]
  | c :: rest =>
    let r := splitOnChar sep rest
    if c = sep then [] :: r
    else
      match r with
      | [] => [[c]]
      | t :: ts => (c :: t) :: ts

/-- Models JavaScript `Number(s)` on the token shapes this system produces:
the empty string is `0`, a nonempty all-digit string is its value, anything
else is NaN (`none`). -/
def jsNumber (s : JsStr) : Option ℕ :=
  if s.isEmpty then some 0
  else if s.all Char.isDigit then
    some (s.foldl (fun a c => 10 * a + (c.toNat - 48)) 0)
  else none

/-- Models `a || b` for JavaScript strings (empty string is falsy). -/
def jsOrStr (s d : JsStr) : JsStr := if s.isEmpty then d else s

/-- Models `a || b` for JavaScript numbers stored as `ℕ`
(`0`/`undefined` are falsy and both modelled by `0`). -/
def jsOrNat (n d : ℕ) : ℕ := if n = 0 then d else n

/-! ### timeMath.ts : clock arithmetic -/

/-- Shape test for the `timeMath.ts` regex `^\d{1,2}:\d{2}$`. -/
def isClockShape : JsStr → Bool
  | [a, ':', b, c] => a.isDigit && b.isDigit && c.isDigit
  | [a, b, ':', c, d] => a.isDigit && b.isDigit && c.isDigit && d.isDigit
  | _ => false

/-- Embeds `normalizeClock` (timeMath.ts): keep a `\d{1,2}:\d{2}` clock
string, otherwise the empty string.  (The source first coerces and trims;
all values reaching it here are already plain strings.) -/
def normalizeClock (s : JsStr) : JsStr := if isClockShape s then s else []

/-- Embeds `timeToMinutes` (timeMath.ts): parse `HH:MM` to minutes,
returning 0 for empty / colon-free / non-numeric input. -/
def timeToMinutes (time : JsStr) : ℕ :=
  if time.isEmpty || !(time.contains ':') then 0
  else
    let parts := splitOnChar ':' time
    match jsNumber (parts.headD []), jsNumber (parts.tail.headD []) with
    | some h, some m => h * 60 + m
    | _, _ => 0

/-- Embeds `minutesToTime` (timeMath.ts): `HH:MM` from a minute count with
no modulo reduction (`Math.floor(m / 60)` zero-padded, `m % 60`
zero-padded).  Callers pass whole minute counts, so `Math.round(m % 60)`
is the plain remainder. -/
def minutesToTime (minutes : ℕ) : JsStr :=
  pad2 (minutes / 60) ++ ':' :: pad2 (minutes % 60)

/-- Embeds `diffMinutes` (timeMath.ts): duration between two clock strings
with one midnight wraparound, 0 if either side fails `normalizeClock`. -/
def diffMinutes (start finish : JsStr) : ℕ :=
  let s := normalizeClock start
  let e := normalizeClock finish
  if s.isEmpty || e.isEmpty then 0
  else
    let duration : ℤ := (timeToMinutes e : ℤ) - (timeToMinutes s : ℤ)
    let duration := if duration < 0 then duration + 24 * 60 else duration
    (max 0 duration).toNat

/-- Punch fields shared by card rows and time entries
(the `PunchEntryLike` interface of timeMath.ts). -/
structure PunchEntry where
  entry1 : JsStr := []
  exit1 : JsStr := []
  entry2 : JsStr := []
  exit2 : JsStr := []
  entryExtra : JsStr := []
  exitExtra : JsStr := []
deriving DecidableEq

/-- Embeds `periodsFromEntry` (timeMath.ts). -/
def periodsFromEntry (e : PunchEntry) : List (JsStr × JsStr) :=
  [(e.entry1, e.exit1), (e.entry2, e.exit2), (e.entryExtra, e.exitExtra)]

/-- Embeds `sumPeriodsMinutes` (timeMath.ts). -/
def sumPeriodsMinutes (ps : List (JsStr × JsStr)) : ℕ :=
  ps.foldl (fun acc p => acc + diffMinutes p.1 p.2) 0

/-- Embeds `sumEntryWorkedMinutes` (timeMath.ts). -/
def sumEntryWorkedMinutes (e : PunchEntry) : ℕ :=
  sumPeriodsMinutes (periodsFromEntry e)

/-- Embeds `getLastExitMinutes` (timeMath.ts): clock-out of the last fully
punched period, 0 when no period is complete. -/
def getLastExitMinutes (e : PunchEntry) : ℕ :=
  let periods := (periodsFromEntry e).filter
    (fun p => !(normalizeClock p.1).isEmpty && !(normalizeClock p.2).isEmpty)
  match periods.getLast? with
  | none => 0
  | some p => timeToMinutes p.2

/-- Embeds `parseCompDays` (timeMath.ts): split the configured string on
commas and keep the finite numeric tokens (all tokens produced by the UI
are small naturals). -/
def parseCompDays (compDaysRaw : JsStr) : List ℕ :=
  (splitOnChar ',' (jsOrStr compDaysRaw (['1', ',', '2', ',', '3', ',', '4']))).filterMap jsNumber

/-- Embeds `resolveDailyJourneyMinutes` (timeMath.ts).  The daily journey
is configured in whole hours, so `Math.round((h || 0) * 60)` is exactly
`h * 60`. -/
def resolveDailyJourneyMinutes (baseDailyJourneyHours : ℕ)
    (isOvertimeCardEntry : Bool) (dayOfWeek : ℕ)
    (saturdayCompensation : Bool) (compDaysRaw : JsStr) : ℕ :=
  if isOvertimeCardEntry then 0
  else
    let journey := baseDailyJourneyHours * 60
    if !saturdayCompensation then journey
    else
      let compDays := parseCompDays compDaysRaw
      if compDays.contains dayOfWeek then journey + 60
      else if dayOfWeek = 6 then 0
      else journey

/-- Embeds `formatClock` (holerithProjection side of utils.ts):
modulo-1440 reduction with the JavaScript remainder (`Int.tmod`), then
zero-padded `HH:MM`.  Callers pass whole minute counts, so the leading
`Math.round` is the identity. -/
def formatClock (totalMinutes : ℤ) : JsStr :=
  let value : ℕ := ((totalMinutes.tmod (24 * 60) + 24 * 60).tmod (24 * 60)).toNat
  pad2 (value / 60) ++ ':' :: pad2 (value % 60)

/-! ### Calendar dates

`YYYY-MM-DD` strings handled through date-fns are modelled by this triple.
-/

/-- Calendar-date triple modelling an ISO `YYYY-MM-DD` string (possibly
denoting a nonexistent day, exactly as the string can). -/
structure DateT where
  year : ℕ
  month : ℕ
  day : ℕ
deriving DecidableEq

/-- Gregorian leap-year test. -/
def isLeapYear (y : ℕ) : Bool := (y % 4 = 0 && y % 100 ≠ 0) || y % 400 = 0

/-- Number of days in a month of the proleptic Gregorian calendar. -/
def daysInMonth (y m : ℕ) : ℕ :=
  if m = 2 then (if isLeapYear y then 29 else 28)
  else if m = 4 || m = 6 || m = 9 || m = 11 then 30
  else 31

/-- Models date-fns `isValid(parseISO(s))` for a `YYYY-MM-DD` string. -/
def isValidDate (d : DateT) : Bool :=
  1 ≤ d.month && d.month ≤ 12 && 1 ≤ d.day && d.day ≤ daysInMonth d.year d.month

/-- Month offsets of Sakamoto's weekday algorithm. -/
def sakamotoT (m : ℕ) : ℕ := [0, 3, 2, 5, 0, 3, 5, 1, 4, 6, 2, 4].getD (m - 1) 0

/-- Year/month part of Sakamoto's weekday formula; `getDayJS d` equals
`(weekA d.year d.month + d.day) % 7`. -/
def weekA (y m : ℕ) : ℕ :=
  let y' := if m < 3 then y - 1 else y
  (y' + y' / 4 + y' / 400 + sakamotoT m) - y' / 100

/-- Models JavaScript `Date.prototype.getDay` (0 = Sunday … 6 = Saturday)
via Sakamoto's algorithm for the Gregorian calendar. -/
def getDayJS (d : DateT) : ℕ := (weekA d.year d.month + d.day) % 7

/-- Strict chronological (equivalently, `localeCompare`) order on dates. -/
def dateLt (a b : DateT) : Bool :=
  a.year < b.year ||
    (a.year = b.year &&
      (a.month < b.month || (a.month = b.month && a.day < b.day)))

/-- ISO rendering `${year}-${pad2 month}-${pad2 day}` of a date triple. -/
def dateToIso (d : DateT) : JsStr :=
  natDigits d.year ++ '-' :: pad2 d.month ++ '-' :: pad2 d.day

/-- Stable insertion into a list sorted by the strict order `lt` (a new
element lands after existing equal elements, matching the stability of
`Array.prototype.sort`). -/
def orderedInsert (lt : α → α → Bool) (x : α) : List α → List α
  | [] => [x]
  | y :: ys => if lt x y then x :: y :: ys else y :: orderedInsert lt x ys

/-- Stable sort by the strict order `lt`, modelling `Array.prototype.sort`
with a consistent comparator. -/
def stableSort (lt : α → α → Bool) (l : List α) : List α :=
  l.foldl (fun acc a => orderedInsert lt a acc) []

/-! ### calculations.ts : competence-day resolution -/

/-- Date-triple form of `resolveWorkDateByCompetenciaDay`
(calculations.ts): card lines above a `cycleStartDay > 1` cutoff belong to
the month before the reference month, with the December/year rollover. -/
def resolveWorkDateTriple (day referenceMonth referenceYear cycleStartDay : ℕ) : DateT :=
  if 1 < cycleStartDay ∧ cycleStartDay < day then
    if referenceMonth - 1 = 0 then ⟨referenceYear - 1, 12, day⟩
    else ⟨referenceYear, referenceMonth - 1, day⟩
  else ⟨referenceYear, referenceMonth, day⟩

/-- Embeds `resolveWorkDateByCompetenciaDay` (calculations.ts), producing
the `${year}-${MM}-${DD}` string of the source. -/
def resolveWorkDateByCompetenciaDay (day referenceMonth referenceYear cycleStartDay : ℕ) : JsStr :=
  dateToIso (resolveWorkDateTriple day referenceMonth referenceYear cycleStartDay)

/-! ### overtimeEngine.ts : settings, entries and the minute classifier -/

/-- Configuration fields consumed by the engine, the projection allocator
and the competence-day resolver (`Settings` of calculations.ts).
Monetary-rate fields (`baseSalary`, `monthlyHours`, `percent…`) and the
OCR/metadata fields influence no minute count and are omitted.  String
fields use `[]` for `undefined`, numeric `cycleStartDay` uses `0`
(both are the falsy cases of the source's `||` defaults).  The daily
journey and the weekly overtime cap are configured in whole hours. -/
structure Settings where
  dailyJourney : ℕ := 0
  weeklyLimit : ℕ := 0
  nightCutoff : JsStr := []
  saturdayCompensation : Bool := false
  compDays : JsStr := []
  cycleStartDay : ℕ := 0
  workStart : JsStr := []
  lunchStart : JsStr := []
  lunchEnd : JsStr := []
  workEnd : JsStr := []
  saturdayWorkStart : JsStr := []
  saturdayWorkEnd : JsStr := []

/-- Engine-facing daily entry (`TimeEntry` of calculations.ts restricted
to the fields the engine reads; the `date` string is the `DateT` triple). -/
structure TimeEntry where
  date : DateT
  punch : PunchEntry := {}
  isOvertimeCard : Bool := false
  isDPAnnotation : Bool := false
deriving DecidableEq

/-- Embeds `MutableTotals` (overtimeEngine.ts). -/
structure MutableTotals where
  total50Minutes : ℕ := 0
  total75Minutes : ℕ := 0
  total100Minutes : ℕ := 0
  total125Minutes : ℕ := 0
  totalBancoHoras : ℕ := 0
deriving DecidableEq

/-- Embeds `WeekContext` (overtimeEngine.ts). -/
structure WeekContext extends MutableTotals where
  weekOvertimeAccumulator : ℕ := 0
deriving DecidableEq

/-- Pair of week and grand totals threaded through the per-minute
classification loop. -/
structure ClassifyState where
  week : WeekContext
  grand : MutableTotals
deriving DecidableEq

/-- Integer floor of the minute-of-day sample probed at walk position
`processed`.  The source samples `dayEndMinutes - (processed + 0.5)` and
shifts it by multiples of 1440 into `[0, 1440)`; since the sample is an
integer minus one half, the normalised sample is exactly
`minuteOfDayFloorAt + 1/2` with this integer floor in `[0, 1439]`. -/
def minuteOfDayFloorAt (dayEndMinutes processed : ℕ) : ℕ :=
  (((dayEndMinutes : ℤ) - (processed : ℤ) - 1) % 1440).toNat

/-- Night test of the engine classifier on the half-minute sample
`minuteFloor + 1/2`: the source's
`minuteOfDay >= nightCutoffMinutes || minuteOfDay < 5 * 60` with integer
`nightCutoffMinutes` is equivalent to
`minuteFloor >= nightCutoffMinutes || minuteFloor < 5 * 60`
(`j + 1/2 ≥ c ↔ j ≥ c` and `j + 1/2 < 300 ↔ j < 300` over the integers). -/
def isNightEngine (minuteFloor nightCutoffMinutes : ℕ) : Bool :=
  decide (nightCutoffMinutes ≤ minuteFloor) || decide (minuteFloor < 5 * 60)

/-- Bump both week and grand tier-50 counters. -/
def add50 (st : ClassifyState) : ClassifyState :=
  { st with
    week := { st.week with total50Minutes := st.week.total50Minutes + 1 }
    grand := { st.grand with total50Minutes := st.grand.total50Minutes + 1 } }

/-- Bump both week and grand tier-75 counters. -/
def add75 (st : ClassifyState) : ClassifyState :=
  { st with
    week := { st.week with total75Minutes := st.week.total75Minutes + 1 }
    grand := { st.grand with total75Minutes := st.grand.total75Minutes + 1 } }

/-- Bump both week and grand tier-100 counters. -/
def add100 (st : ClassifyState) : ClassifyState :=
  { st with
    week := { st.week with total100Minutes := st.week.total100Minutes + 1 }
    grand := { st.grand with total100Minutes := st.grand.total100Minutes + 1 } }

/-- Bump both week and grand tier-125 counters. -/
def add125 (st : ClassifyState) : ClassifyState :=
  { st with
    week := { st.week with total125Minutes := st.week.total125Minutes + 1 }
    grand := { st.grand with total125Minutes := st.grand.total125Minutes + 1 } }

/-- Body of one iteration of the `while (processed < totalOvertimeToProcess)`
loop of `classifyAndAccumulateRule` (overtimeEngine.ts). -/
def classifyOneMinute (isSunday : Bool) (nightCutoffMinutes weeklyLimit : ℕ)
    (dayEndMinutes processed : ℕ) (st : ClassifyState) : ClassifyState :=
  let minuteFloor := minuteOfDayFloorAt dayEndMinutes processed
  let isNight := isNightEngine minuteFloor nightCutoffMinutes
  if isSunday then
    if isNight then add125 st else add100 st
  else
    let limitMinutes := weeklyLimit * 60
    let isWithinLimit : Bool :=
      if 0 < limitMinutes then decide (st.week.weekOvertimeAccumulator < limitMinutes)
      else true
    let st :=
      if isWithinLimit then (if isNight then add75 st else add50 st)
      else (if isNight then add125 st else add100 st)
    { st with
      week := { st.week with
        weekOvertimeAccumulator := st.week.weekOvertimeAccumulator + 1 } }

/-- Whole classification loop of `classifyAndAccumulateRule`: process `k`
further minutes starting at walk position `processed`. -/
def classifyLoop (isSunday : Bool) (nightCutoffMinutes weeklyLimit : ℕ)
    (dayEndMinutes : ℕ) : (k processed : ℕ) → ClassifyState → ClassifyState
  | 0, _, st => st
  | k + 1, processed, st =>
    classifyLoop isSunday nightCutoffMinutes weeklyLimit dayEndMinutes k (processed + 1)
      (classifyOneMinute isSunday nightCutoffMinutes weeklyLimit dayEndMinutes processed st)

/-- Embeds `DayRuleContext` (overtimeEngine.ts). -/
structure DayRuleContext where
  entry : TimeEntry
  settings : Settings
  nightCutoffMinutes : ℕ
  week : WeekContext
  grand : MutableTotals
  isSunday : Bool
  isOvertimeCardEntry : Bool
  dailyJourneyMinutesEntry : ℕ := 0
  dailyTotalMinutes : ℕ := 0
  dayOvertimeMinutes : ℕ := 0
  dayEndMinutes : ℕ := 0

/-- Embeds `resolveJourneyRule` (overtimeEngine.ts). -/
def resolveJourneyRule (ctx : DayRuleContext) : DayRuleContext :=
  let dayOfWeek := if isValidDate ctx.entry.date then getDayJS ctx.entry.date else 0
  { ctx with
    dailyJourneyMinutesEntry :=
      resolveDailyJourneyMinutes ctx.settings.dailyJourney ctx.isOvertimeCardEntry
        dayOfWeek ctx.settings.saturdayCompensation ctx.settings.compDays }

/-- Embeds `computeWorkedTimeRule` (overtimeEngine.ts). -/
def computeWorkedTimeRule (ctx : DayRuleContext) : DayRuleContext :=
  { ctx with
    dailyTotalMinutes := sumEntryWorkedMinutes ctx.entry.punch
    dayEndMinutes := getLastExitMinutes ctx.entry.punch }

/-- Embeds `computeDayOvertimeRule` (overtimeEngine.ts).  The source's
`dailyJourneyMinutesEntry || (dailyTotalMinutes > 0 ? 0 : Infinity)`
falls back, when the journey is 0, to 0 on a worked day and to `Infinity`
(hence 0 overtime after `max(0, ·)`) on an empty day; `Math.max(0, a - b)`
is the truncated `ℕ` subtraction. -/
def computeDayOvertimeRule (ctx : DayRuleContext) : DayRuleContext :=
  { ctx with
    dayOvertimeMinutes :=
      if ctx.isSunday then ctx.dailyTotalMinutes
      else if ctx.dailyJourneyMinutesEntry = 0 then
        (if 0 < ctx.dailyTotalMinutes then ctx.dailyTotalMinutes else 0)
      else ctx.dailyTotalMinutes - ctx.dailyJourneyMinutesEntry }

/-- Embeds `classifyAndAccumulateRule` (overtimeEngine.ts): normal-card
excess goes to banked hours, overtime-card minutes run the per-minute
classification loop (`Math.round` of the whole-minute overtime count is
the identity). -/
def classifyAndAccumulateRule (ctx : DayRuleContext) : DayRuleContext :=
  if ctx.dayOvertimeMinutes = 0 then ctx
  else if !ctx.isOvertimeCardEntry then
    { ctx with
      week := { ctx.week with
        totalBancoHoras := ctx.week.totalBancoHoras + ctx.dayOvertimeMinutes }
      grand := { ctx.grand with
        totalBancoHoras := ctx.grand.totalBancoHoras + ctx.dayOvertimeMinutes } }
  else
    let res := classifyLoop ctx.isSunday ctx.nightCutoffMinutes ctx.settings.weeklyLimit
      ctx.dayEndMinutes ctx.dayOvertimeMinutes 0 ⟨ctx.week, ctx.grand⟩
    { ctx with week := res.week, grand := res.grand }

/-- Embeds `runDayRuleChain` (overtimeEngine.ts): `composeRules` with
rules that each invoke `next()` exactly once reduces to their sequential
composition. -/
def runDayRuleChain (ctx : DayRuleContext) : DayRuleContext :=
  classifyAndAccumulateRule (computeDayOvertimeRule (computeWorkedTimeRule (resolveJourneyRule ctx)))

/-! ### overtimeEngine.ts : overnight normalisation, week grouping, engine -/

/-- Overnight fix for one entry/exit pair of two consecutive rows
(timeMath.ts `normalizeOvernightEntries` body): when the earlier row has
only an entry and the later row only an exit, move the (normalised) exit
to the earlier row.  Returns the updated pair of fields
`(current[endKey], next[endKey])`. -/
def fixPairField (curStart curEnd nxtStart nxtEnd : JsStr) : JsStr × JsStr :=
  if !(normalizeClock curStart).isEmpty && (normalizeClock curEnd).isEmpty
      && (normalizeClock nxtStart).isEmpty && !(normalizeClock nxtEnd).isEmpty then
    (normalizeClock nxtEnd, [])
  else (curEnd, nxtEnd)

/-- Apply the overnight fix to the three punch pairs of two consecutive
(date-ordered) entries. -/
def overnightFixEntries (cur nxt : TimeEntry) : TimeEntry × TimeEntry :=
  let p1 := fixPairField cur.punch.entry1 cur.punch.exit1 nxt.punch.entry1 nxt.punch.exit1
  let p2 := fixPairField cur.punch.entry2 cur.punch.exit2 nxt.punch.entry2 nxt.punch.exit2
  let p3 := fixPairField cur.punch.entryExtra cur.punch.exitExtra nxt.punch.entryExtra nxt.punch.exitExtra
  ({ cur with punch := { cur.punch with exit1 := p1.1, exit2 := p2.1, exitExtra := p3.1 } },
   { nxt with punch := { nxt.punch with exit1 := p1.2, exit2 := p2.2, exitExtra := p3.2 } })

/-- Carry-style helper of `normalizePass`: `cur` is the row currently
being repaired against the next one. -/
def normalizePassAux (cur : ℕ × TimeEntry) : List (ℕ × TimeEntry) → List (ℕ × TimeEntry)
  | [] => [cur]
  | nxt :: rest =>
    let p := overnightFixEntries cur.2 nxt.2
    (cur.1, p.1) :: normalizePassAux (nxt.1, p.2) rest

/-- Sequential pairwise pass of `normalizeOvernightEntries` over the
date-ordered entries (each updated `next` flows into the following
iteration, mirroring the in-place mutation of the source). -/
def normalizePass : List (ℕ × TimeEntry) → List (ℕ × TimeEntry)
  | [] => []
  | x :: rest => normalizePassAux x rest

/-- Embeds `normalizeOvernightEntries` (timeMath.ts): clone, view the rows
in date order, repair overnight punches split across two rows, and return
the rows in their original order.  Object identity of the source's shared
references is modelled by the original position index. -/
def normalizeOvernightEntries (entries : List TimeEntry) : List TimeEntry :=
  if entries.isEmpty then entries
  else
    let indexed := entries.enum
    let ordered := stableSort (fun a b => dateLt a.2.date b.2.date) indexed
    let fixed := normalizePass ordered
    indexed.map (fun p => ((fixed.find? (fun q => q.1 == p.1)).getD p).2)

/-- Week index of the custom week grouping (overtimeEngine.ts
`groupByCustomWeek`, identical formula in utils.ts `getCustomWeekKey`):
`Math.ceil` of a positive integer quotient is `(x + 6) / 7`. -/
def getCustomWeekIndex (date : DateT) : ℕ :=
  let dayOfMonth := date.day
  let dayOfWeekFirstOfMonth := (getDayJS ⟨date.year, date.month, 1⟩ + 6) % 7 + 1
  let daysUntilFirstSunday := 7 - dayOfWeekFirstOfMonth % 7
  if daysUntilFirstSunday < dayOfMonth then
    1 + (dayOfMonth - daysUntilFirstSunday + 6) / 7
  else 1

/-- Custom week key `YYYY-MM-W{n}`, modelled as a triple; `localeCompare`
with `numeric: true` on the key strings is the lexicographic order on the
triple. -/
structure WeekKey where
  year : ℕ
  month : ℕ
  weekIndex : ℕ
deriving DecidableEq

/-- Embeds `getCustomWeekKey`. -/
def getCustomWeekKey (date : DateT) : WeekKey :=
  ⟨date.year, date.month, getCustomWeekIndex date⟩

/-- Numeric-aware `localeCompare` order on week keys. -/
def weekKeyLt (a b : WeekKey) : Bool :=
  a.year < b.year ||
    (a.year = b.year &&
      (a.month < b.month || (a.month = b.month && a.weekIndex < b.weekIndex)))

/-- First-occurrence deduplication, modelling JavaScript object-key
insertion order. -/
def firstOccurrences [DecidableEq α] (l : List α) : List α :=
  l.foldl (fun acc a => if acc.contains a then acc else acc ++ [a]) []

/-- Embeds `groupByCustomWeek` (overtimeEngine.ts): entries with an
invalid (or absent) date are dropped; the remaining entries are grouped by
custom week key in insertion order. -/
def groupByCustomWeek (entries : List TimeEntry) : List (WeekKey × List TimeEntry) :=
  let valid := entries.filter (fun e => isValidDate e.date)
  (firstOccurrences (valid.map (fun e => getCustomWeekKey e.date))).map
    (fun k => (k, valid.filter (fun e => getCustomWeekKey e.date == k)))

/-- Minute-count fields of a `WeeklySummary` (overtimeEngine.ts); the
derived hour/value floats are outside every claim and omitted. -/
structure WeeklySummary where
  weekStart : DateT
  weekEnd : DateT
  total50Minutes : ℕ
  total75Minutes : ℕ
  total100Minutes : ℕ
  total125Minutes : ℕ
  totalBancoHoras : ℕ
deriving DecidableEq

/-- Minute-count fields of `OvertimeComputationResult`
(overtimeEngine.ts); derived hour/value floats omitted. -/
structure OvertimeComputationResult where
  weeklySummaries : List WeeklySummary
  grandTotal50Minutes : ℕ
  grandTotal75Minutes : ℕ
  grandTotal100Minutes : ℕ
  grandTotal125Minutes : ℕ
  grandTotalBancoHoras : ℕ
deriving DecidableEq

/-- One week-entry step of `runOvertimeEngine`: build the day context and
run the rule chain, threading week and grand totals. -/
def processWeekEntry (settings : Settings) (nightCutoffMinutes : ℕ)
    (st : WeekContext × MutableTotals) (entry : TimeEntry) : WeekContext × MutableTotals :=
  let ctx : DayRuleContext := {
    entry := entry
    settings := settings
    nightCutoffMinutes := nightCutoffMinutes
    week := st.1
    grand := st.2
    isSunday := if isValidDate entry.date then decide (getDayJS entry.date = 0) else false
    isOvertimeCardEntry := entry.isOvertimeCard }
  let ctx := runDayRuleChain ctx
  (ctx.week, ctx.grand)

/-- Embeds `runOvertimeEngine` (overtimeEngine.ts), restricted to its
minute-count outputs: normalise overnight punches, group by custom week,
process each week's entries in date order with a fresh week context, and
accumulate grand totals. -/
def runOvertimeEngine (entries : List TimeEntry) (settings : Settings) :
    OvertimeComputationResult :=
  let effectiveEntries := normalizeOvernightEntries entries
  let nightCutoffMinutes := timeToMinutes (jsOrStr settings.nightCutoff (("22:00").data))
  let groupedWeeks := groupByCustomWeek effectiveEntries
  let sortedWeeks := stableSort (fun a b => weekKeyLt a.1 b.1) groupedWeeks
  let folded := sortedWeeks.foldl
    (fun (acc : List WeeklySummary × MutableTotals) wk =>
      let weekEntries := stableSort (fun a b => dateLt a.date b.date) wk.2
      let res := weekEntries.foldl (processWeekEntry settings nightCutoffMinutes) ({}, acc.2)
      let summary : WeeklySummary := {
        weekStart := ((weekEntries.head?).map TimeEntry.date).getD ⟨0, 0, 0⟩
        weekEnd := ((weekEntries.getLast?).map TimeEntry.date).getD ⟨0, 0, 0⟩
        total50Minutes := res.1.total50Minutes
        total75Minutes := res.1.total75Minutes
        total100Minutes := res.1.total100Minutes
        total125Minutes := res.1.total125Minutes
        totalBancoHoras := res.1.totalBancoHoras }
      (acc.1 ++ [summary], res.2))
    ([], {})
  { weeklySummaries := folded.1
    grandTotal50Minutes := folded.2.total50Minutes
    grandTotal75Minutes := folded.2.total75Minutes
    grandTotal100Minutes := folded.2.total100Minutes
    grandTotal125Minutes := folded.2.total125Minutes
    grandTotalBancoHoras := folded.2.totalBancoHoras }

/-- Embeds `calculateOvertime` (calculations.ts): missing settings throw,
missing entries return `null`, otherwise the engine runs. -/
def calculateOvertime (entries : Option (List TimeEntry)) (settings : Option Settings) :
    Except JsStr (Option OvertimeComputationResult) :=
  match settings with
  | none => Except.error (("Settings are required").data)
  | some s =>
    match entries with
    | none => Except.ok none
    | some es => Except.ok (some (runOvertimeEngine es s))

/-! ### payroll.ts : progressive INSS and simultaneous-regime IRRF

The monetary computations of `calcularHoleriteCompleto` are embedded over
`ℚ`, parameterised by the gross pay (`totalProventos`) they consume.
-/

/-- Embeds `INSS_FAIXAS_2026` (payroll.ts): `(limite, aliquota)` pairs. -/
def INSS_FAIXAS_2026 : List (ℚ × ℚ) :=
  [(1621.00, 0.075), (2902.84, 0.09), (4354.27, 0.12), (8475.55, 0.14)]

/-- Bracket loop of step 6 of `calcularHoleriteCompleto` (payroll.ts):
state is `(restanteINSS, limiteAnterior, inss)`, with the source's
`if (restanteINSS <= 0) break`. -/
def inssLoop : List (ℚ × ℚ) → ℚ → ℚ → ℚ → ℚ
  | [], _, _, inss => inss
  | faixa :: rest, restanteINSS, limiteAnterior, inss =>
    if restanteINSS ≤ 0 then inss
    else
      let amplitude := faixa.1 - limiteAnterior
      let baseFaixa := min restanteINSS amplitude
      inssLoop rest (restanteINSS - baseFaixa) faixa.1 (inss + baseFaixa * faixa.2)

/-- INSS computation of `calcularHoleriteCompleto` (payroll.ts step 6):
clamp the gross into `[0, teto]` and run the bracket loop. -/
def calcInss (totalProventos : ℚ) : ℚ :=
  let tetoINSS : ℚ := 8475.55
  let baseINSS := min (max 0 totalProventos) tetoINSS
  inssLoop INSS_FAIXAS_2026 baseINSS 0 0

/-- Traditional monthly IR table of `calcularHoleriteCompleto`
(payroll.ts step 7), including the final floor at zero. -/
def irBaseTradicional (baseIR : ℚ) : ℚ :=
  let t : ℚ :=
    if baseIR ≤ 2428.80 then 0
    else if baseIR ≤ 2826.65 then baseIR * 0.075 - 182.16
    else if baseIR ≤ 3751.05 then baseIR * 0.15 - 394.16
    else if baseIR ≤ 4664.68 then baseIR * 0.225 - 675.49
    else baseIR * 0.275 - 908.73
  if t < 0 then 0 else t

/-- Monthly 2026 reducer of `calcularHoleriteCompleto` (payroll.ts
step 7): full exemption up to 5000, linear phase-out to 7350, zero above,
never negative. -/
def redutorMensal2026 (rendaMensal irTrad : ℚ) : ℚ :=
  if rendaMensal ≤ 5000 then irTrad
  else if rendaMensal ≤ 7350 then
    let r : ℚ := 978.62 - 0.133145 * rendaMensal
    if r < 0 then 0 else r
  else 0

/-- Total monthly IR of `calcularHoleriteCompleto` (payroll.ts step 7):
traditional table on `gross − INSS − dependents×189.59`, minus the
reducer, floored at zero. -/
def calcIrTotal (totalProventos : ℚ) (dependentes : ℕ) : ℚ :=
  let inss := calcInss totalProventos
  let valorDependente : ℚ := 189.59
  let baseIR := totalProventos - inss - (dependentes : ℚ) * valorDependente
  let irTrad := irBaseTradicional baseIR
  let redutor := redutorMensal2026 totalProventos irTrad
  let irTotal := irTrad - redutor
  if irTotal < 0 then 0 else irTotal

/-! ### holerithProjection (utils.ts) : reverse allocation from payslip totals -/

/-- Overtime rate tiers (`RateType` of utils.ts, the string literals
`'50' | '75' | '100' | '125'`). -/
inductive RateType where
  | R50
  | R75
  | R100
  | R125
deriving DecidableEq

/-- Embeds `CardRow` (utils.ts): the `date` string is the `DateT`
triple, `day` is the zero-padded line-number string. -/
structure CardRow where
  date : DateT
  day : JsStr
  punch : PunchEntry := {}
  totalHours : JsStr := []
  isDPAnnotation : Bool := false
deriving DecidableEq

/-- Embeds `Segment` (utils.ts); `startM`/`endM` stand for the source's
`start`/`end` fields (`end` is reserved in Lean). -/
structure Segment where
  startM : ℕ
  endM : ℕ
deriving DecidableEq

/-- Embeds `SlotPlan` (utils.ts). -/
structure SlotPlan where
  startM : ℕ
  endM : ℕ
  cursor : ℕ
  segments : List Segment := []
deriving DecidableEq

/-- Embeds `DayPlan` (utils.ts): the mutable shared `row` reference is
modelled by the row value plus its index `idx` in the overtime-rows list. -/
structure DayPlan where
  idx : ℕ
  row : CardRow
  dayOfWeek : ℕ
  weekKey : WeekKey
  slots : List SlotPlan
deriving DecidableEq

/-- Embeds `ParsedHolerithPdfData` (holerithPdf.ts), restricted to the
minute totals the projection consumes; the extractor only ever produces
non-negative whole minutes (`Math.max(0, …)` on integers), hence `ℕ`. -/
structure ParsedHolerithData where
  he50Minutes : ℕ := 0
  he75Minutes : ℕ := 0
  he100Minutes : ℕ := 0
  he125Minutes : ℕ := 0
  atrasoMinutes : ℕ := 0

/-- Embeds `ProjectedCardFromHolerith.summary` (utils.ts). -/
structure ProjectedSummary where
  atrasoMinutesApplied : ℕ
  he50MinutesApplied : ℕ
  he75MinutesApplied : ℕ
  he100MinutesApplied : ℕ
  he125MinutesApplied : ℕ
deriving DecidableEq

/-- Embeds `ProjectedCardFromHolerith` (utils.ts). -/
structure ProjectedCardFromHolerith where
  hours : List CardRow
  he : List CardRow
  summary : ProjectedSummary
  warnings : List JsStr
deriving DecidableEq

/-- Embeds `blankRow` (utils.ts). -/
def blankRow (day : ℕ) (date : DateT) : CardRow :=
  { date := date, day := pad2 day }

/-- Embeds `parseCompDays` (utils.ts variant): split, trim, keep integer
tokens in `0..6`. -/
def parseCompDaysUtils (compDaysRaw : JsStr) : List ℕ :=
  ((splitOnChar ',' (jsOrStr compDaysRaw (['1', ',', '2', ',', '3', ',', '4']))).filterMap
    jsNumber).filter (fun n => n ≤ 6)

/-- Embeds `isWeekday` (utils.ts); the weekday is `ℤ`-valued because an
invalid date yields `-1`. -/
def isWeekdayJs (dayOfWeek : ℤ) : Bool := 1 ≤ dayOfWeek && dayOfWeek ≤ 5

/-- Embeds `isNightMinute` (utils.ts). -/
def isNightMinuteUtils (minuteOfDay nightCutoffMinutes : ℕ) : Bool :=
  decide (nightCutoffMinutes ≤ minuteOfDay) || decide (minuteOfDay < 5 * 60)

/-- Embeds `classifyMinuteRateType` (utils.ts): predicted tier of a minute
at a given position, week-accumulator value and (integer) weekly limit. -/
def classifyMinuteRateType (dayOfWeek minuteOfDay weekAccumulator weeklyLimitMinutes
    nightCutoffMinutes : ℕ) : RateType :=
  let night := isNightMinuteUtils minuteOfDay nightCutoffMinutes
  if dayOfWeek = 0 then (if night then .R125 else .R100)
  else
    let withinLimit : Bool :=
      if 0 < weeklyLimitMinutes then decide (weekAccumulator < weeklyLimitMinutes) else true
    if withinLimit then (if night then .R75 else .R50)
    else (if night then .R125 else .R100)

/-- Embeds `addMinuteToSlot` (utils.ts): extend the last segment when
contiguous, otherwise append a fresh one-minute segment. -/
def addMinuteToSlot (segments : List Segment) (minute : ℕ) : List Segment :=
  match segments.getLast? with
  | some last =>
    if last.endM = minute then segments.dropLast ++ [{ startM := last.startM, endM := minute + 1 }]
    else segments ++ [{ startM := minute, endM := minute + 1 }]
  | none => [{ startM := minute, endM := minute + 1 }]

/-- Week-accumulator map of `buildProjectedCardFromHolerith`
(`Map<string, number>`), as an association list. -/
abbrev AccMap := List (WeekKey × ℕ)

/-- Models `weekAccumulator.get(key) || 0`. -/
def accGet (acc : AccMap) (k : WeekKey) : ℕ :=
  ((acc.find? (fun p => p.1 == k)).map Prod.snd).getD 0

/-- Models `weekAccumulator.set(key, v)`. -/
def accSet (acc : AccMap) (k : WeekKey) (v : ℕ) : AccMap :=
  if (acc.find? (fun p => p.1 == k)).isSome then
    acc.map (fun p => if p.1 == k then (k, v) else p)
  else acc ++ [(k, v)]

/-- Embeds `buildDayPlans` (utils.ts): candidate allocation windows per
valid-dated row — Sunday day and night windows, otherwise pre-shift and
post-shift windows around the (Saturday-aware) base schedule. -/
def buildDayPlans (rows : List CardRow) (settings : Settings) : List DayPlan :=
  let workStartMin := timeToMinutes (jsOrStr settings.workStart (("12:00").data))
  let workEndMin := timeToMinutes (jsOrStr settings.workEnd (("21:00").data))
  let saturdayStartMin := timeToMinutes (jsOrStr settings.saturdayWorkStart (("12:00").data))
  let saturdayEndMin := timeToMinutes (jsOrStr settings.saturdayWorkEnd (("16:00").data))
  let nightStartMin := timeToMinutes (jsOrStr settings.nightCutoff (("22:00").data))
  rows.enum.filterMap (fun p =>
    let row := p.2
    if !isValidDate row.date then none
    else
      let dayOfWeek := getDayJS row.date
      let weekKey := getCustomWeekKey row.date
      let slots : List SlotPlan :=
        if dayOfWeek = 0 then
          let sundayDayStart := 8 * 60
          let sundayDayEnd := 18 * 60
          let sundayNightStart := max (22 * 60) nightStartMin
          let sundayNightEnd := sundayNightStart + 240
          [{ startM := sundayDayStart, endM := sundayDayEnd, cursor := sundayDayStart },
           { startM := sundayNightStart, endM := sundayNightEnd, cursor := sundayNightStart }]
        else
          let satNoComp := dayOfWeek = 6 && !settings.saturdayCompensation
          let baseStart := if satNoComp then saturdayStartMin else workStartMin
          let baseEnd := if satNoComp then saturdayEndMin else workEndMin
          let beforeStart := baseStart - 120
          let beforeEnd := baseStart
          let afterStart := baseEnd
          let afterEnd := baseEnd + 360
          [{ startM := beforeStart, endM := beforeEnd, cursor := beforeStart },
           { startM := afterStart, endM := afterEnd, cursor := afterStart }]
      some { idx := p.1, row := row, dayOfWeek := dayOfWeek, weekKey := weekKey, slots := slots })

/-- Inner `while` of `allocateTypeMinutes` (utils.ts): consume minutes of
one slot from `cursor`, stopping at the slot end, at exhaustion of the
request, or at the first minute whose predicted tier mismatches.  Returns
the final cursor, segments, remaining request and accumulator map. -/
def allocSlotLoop (dayOfWeek : ℕ) (weekKey : WeekKey) (targetType : RateType)
    (weeklyLimitMinutes nightCutoffMinutes endM : ℕ) :
    (remaining cursor : ℕ) → List Segment → AccMap → ℕ × List Segment × ℕ × AccMap
  | 0, cursor, segments, acc => (cursor, segments, 0, acc)
  | remaining + 1, cursor, segments, acc =>
    if cursor < endM then
      let minuteOfDay := (cursor % (24 * 60) + 24 * 60) % (24 * 60)
      let currentWeekAcc := accGet acc weekKey
      let predictedType := classifyMinuteRateType dayOfWeek minuteOfDay currentWeekAcc
        weeklyLimitMinutes nightCutoffMinutes
      if predictedType ≠ targetType then (cursor, segments, remaining + 1, acc)
      else
        allocSlotLoop dayOfWeek weekKey targetType weeklyLimitMinutes nightCutoffMinutes endM
          remaining (cursor + 1) (addMinuteToSlot segments cursor)
          (if dayOfWeek ≠ 0 then accSet acc weekKey (currentWeekAcc + 1) else acc)
    else (cursor, segments, remaining + 1, acc)

/-- Slot loop of `allocateTypeMinutes`: thread the remaining request and
accumulator through a day's slots, stopping early when exhausted. -/
def allocDaySlots (dayOfWeek : ℕ) (weekKey : WeekKey) (targetType : RateType)
    (weeklyLimitMinutes nightCutoffMinutes : ℕ) :
    List SlotPlan → ℕ → AccMap → List SlotPlan × ℕ × AccMap
  | [], remaining, acc => ([], remaining, acc)
  | slot :: rest, remaining, acc =>
    if remaining = 0 then (slot :: rest, remaining, acc)
    else
      let r := allocSlotLoop dayOfWeek weekKey targetType weeklyLimitMinutes nightCutoffMinutes
        slot.endM remaining slot.cursor slot.segments acc
      let slot' := { slot with cursor := r.1, segments := r.2.1 }
      let rec' := allocDaySlots dayOfWeek weekKey targetType weeklyLimitMinutes nightCutoffMinutes
        rest r.2.2.1 r.2.2.2
      (slot' :: rec'.1, rec'.2)

/-- Day loop of `allocateTypeMinutes`: skip days excluded by the
`sundayOnly` / `nonSundayOnly` filters and stop early when the request is
exhausted. -/
def allocDays (targetType : RateType) (weeklyLimitMinutes nightCutoffMinutes : ℕ)
    (sundayOnly nonSundayOnly : Bool) :
    List DayPlan → ℕ → AccMap → List DayPlan × ℕ × AccMap
  | [], remaining, acc => ([], remaining, acc)
  | plan :: rest, remaining, acc =>
    if remaining = 0 then (plan :: rest, remaining, acc)
    else if (sundayOnly && plan.dayOfWeek ≠ 0) || (nonSundayOnly && plan.dayOfWeek = 0) then
      let rec' := allocDays targetType weeklyLimitMinutes nightCutoffMinutes sundayOnly
        nonSundayOnly rest remaining acc
      (plan :: rec'.1, rec'.2)
    else
      let r := allocDaySlots plan.dayOfWeek plan.weekKey targetType weeklyLimitMinutes
        nightCutoffMinutes plan.slots remaining acc
      let plan' := { plan with slots := r.1 }
      let rec' := allocDays targetType weeklyLimitMinutes nightCutoffMinutes sundayOnly
        nonSundayOnly rest r.2.1 r.2.2
      (plan' :: rec'.1, rec'.2)

/-- Embeds `allocateTypeMinutes` (utils.ts).  The requested minute totals
are whole non-negative numbers, so `Math.max(0, Math.round(target))` is
`target` itself; the applied count is `Math.max(0, target − remaining)`.
Returns the updated day plans, the updated accumulator map and the applied
minute count. -/
def allocateTypeMinutes (dayPlans : List DayPlan) (targetType : RateType)
    (targetMinutes : ℕ) (weekAccumulator : AccMap) (weeklyLimitMinutes nightCutoffMinutes : ℕ)
    (sundayOnly nonSundayOnly : Bool) : List DayPlan × AccMap × ℕ :=
  let r := allocDays targetType weeklyLimitMinutes nightCutoffMinutes sundayOnly nonSundayOnly
    dayPlans targetMinutes weekAccumulator
  (r.1, r.2.2, max 0 (targetMinutes - r.2.1))

/-- Consolidation warning
`Dia ${row.day}: excesso de periodos previstos; consolidado em 3 batidas.`. -/
def consolidationWarningText (dayStr : JsStr) : JsStr :=
  ("Dia ").data ++ dayStr ++ (": excesso de periodos previstos; consolidado em 3 batidas.").data

/-- Compaction step of `applySegmentsToRows` (utils.ts): merge a segment
into the growing list when it touches or overlaps the last one. -/
def compactStep (compacted : List Segment) (segment : Segment) : List Segment :=
  match compacted.getLast? with
  | some last =>
    if segment.startM ≤ last.endM then
      compacted.dropLast ++ [{ startM := last.startM, endM := max last.endM segment.endM }]
    else compacted ++ [segment]
  | none => [segment]

/-- Write up to three compacted segments into the row's punch pairs
(`fields.forEach` of `applySegmentsToRows`). -/
def writeSegmentsToRow (row : CardRow) (compacted : List Segment) : CardRow :=
  let row := match compacted.get? 0 with
    | some s => { row with punch := { row.punch with
        entry1 := formatClock (s.startM : ℤ), exit1 := formatClock (s.endM : ℤ) } }
    | none => row
  let row := match compacted.get? 1 with
    | some s => { row with punch := { row.punch with
        entry2 := formatClock (s.startM : ℤ), exit2 := formatClock (s.endM : ℤ) } }
    | none => row
  match compacted.get? 2 with
  | some s => { row with punch := { row.punch with
      entryExtra := formatClock (s.startM : ℤ), exitExtra := formatClock (s.endM : ℤ) } }
  | none => row

/-- Per-plan body of `applySegmentsToRows` (utils.ts): sort and compact
the allocated segments, force-consolidate more than three of them into
exactly three (with a warning), and write the punches. -/
def applySegmentsForPlan (plan : DayPlan) : CardRow × Option JsStr :=
  let mergedSegments := stableSort (fun a b => a.startM < b.startM)
    ((plan.slots.map SlotPlan.segments).flatten)
  let compacted := mergedSegments.foldl compactStep []
  if 3 < compacted.length then
    let third : Segment :=
      { startM := ((compacted.get? 2).map Segment.startM).getD 0
        endM := ((compacted.getLast?).map Segment.endM).getD 0 }
    let compacted3 := (compacted.take 2) ++ [third]
    (writeSegmentsToRow plan.row compacted3, some (consolidationWarningText plan.row.day))
  else (writeSegmentsToRow plan.row compacted, none)

/-- Embeds `applySegmentsToRows` (utils.ts): apply every plan's segments
to its (index-identified) row, appending consolidation warnings in plan
order. -/
def applySegmentsToRows (plans : List DayPlan) (rows : List CardRow) :
    List CardRow × List JsStr :=
  plans.foldl (fun acc plan =>
    let r := applySegmentsForPlan plan
    (acc.1.set plan.idx r.1, acc.2 ++ r.2.toList)) (rows, [])

/-- Candidate filter of the lateness distribution
(`atrasoCandidates` of utils.ts). -/
def atrasoCandidate (row : CardRow) : Bool :=
  isValidDate row.date && isWeekdayJs (getDayJS row.date : ℤ)
    && !row.punch.entry2.isEmpty && !row.punch.exit2.isEmpty

/-- Lateness distribution loop of `buildProjectedCardFromHolerith`
(utils.ts): trim up to 60 minutes off the afternoon exit of each candidate
row until the lateness total is exhausted.  Returns the updated rows, the
unplaced remainder and the applied total.  (`Math.max(0, end - start)` is
the truncated `ℕ` subtraction.) -/
def distributeAtraso : List CardRow → ℕ → List CardRow × ℕ × ℕ
  | [], remaining => ([], remaining, 0)
  | row :: rest, remaining =>
    if remaining = 0 then (row :: rest, remaining, 0)
    else if atrasoCandidate row then
      let startMin := timeToMinutes row.punch.entry2
      let endMin := timeToMinutes row.punch.exit2
      let available := endMin - startMin
      if available = 0 then
        let r := distributeAtraso rest remaining
        (row :: r.1, r.2)
      else
        let cut := min 60 (min available remaining)
        let row' := { row with
          punch := { row.punch with exit2 := formatClock ((endMin : ℤ) - (cut : ℤ)) }
          isDPAnnotation := false }
        let r := distributeAtraso rest (remaining - cut)
        (row' :: r.1, r.2.1, r.2.2 + cut)
    else
      let r := distributeAtraso rest remaining
      (row :: r.1, r.2)

/-- Atraso shortfall warning
`Nao foi possivel distribuir ${minutesToTime(r)} de atraso no cartao normal.`. -/
def atrasoWarningText (m : ℕ) : JsStr :=
  ("Nao foi possivel distribuir ").data ++ minutesToTime m
    ++ (" de atraso no cartao normal.").data

/-- Tier shortfall warning `HE 50% restante nao alocada: ….`. -/
def tierWarningText50 (missing : ℕ) : JsStr :=
  ("HE 50% restante nao alocada: ").data ++ minutesToTime missing ++ (".").data

/-- Tier shortfall warning `HE 75% restante nao alocada: ….`. -/
def tierWarningText75 (missing : ℕ) : JsStr :=
  ("HE 75% restante nao alocada: ").data ++ minutesToTime missing ++ (".").data

/-- Tier shortfall warning `HE 100% restante nao alocada: ….`. -/
def tierWarningText100 (missing : ℕ) : JsStr :=
  ("HE 100% restante nao alocada: ").data ++ minutesToTime missing ++ (".").data

/-- Tier shortfall warning `HE 125% restante nao alocada: ….`. -/
def tierWarningText125 (missing : ℕ) : JsStr :=
  ("HE 125% restante nao alocada: ").data ++ minutesToTime missing ++ (".").data

/-- Embeds `finalizeTotals` (utils.ts). -/
def finalizeTotals (rows : List CardRow) : List CardRow :=
  rows.map (fun row => { row with totalHours := minutesToTime (sumEntryWorkedMinutes row.punch) })

/-- Baseline normal-card and (blank) overtime-card row for one card line
(body of the `for (let day = 1; day <= 31; day++)` loop of
`buildProjectedCardFromHolerith`). -/
def buildBaseRowPair (settings : Settings) (referenceMonthNumber referenceYear cycleStartDay : ℕ)
    (compDays : List ℕ) (day : ℕ) : CardRow × CardRow :=
  let workStartMin := timeToMinutes (jsOrStr settings.workStart (("12:00").data))
  let lunchStartMin := timeToMinutes (jsOrStr settings.lunchStart (("17:00").data))
  let lunchEndMin := timeToMinutes (jsOrStr settings.lunchEnd (("18:00").data))
  let workEndMin := timeToMinutes (jsOrStr settings.workEnd (("21:00").data))
  let saturdayStartMin := timeToMinutes (jsOrStr settings.saturdayWorkStart (("12:00").data))
  let saturdayEndMin := timeToMinutes (jsOrStr settings.saturdayWorkEnd (("16:00").data))
  let date := resolveWorkDateTriple day referenceMonthNumber referenceYear cycleStartDay
  let dayOfWeek : ℤ := if isValidDate date then (getDayJS date : ℤ) else -1
  let normal := blankRow day date
  let normal :=
    if isWeekdayJs dayOfWeek then
      let adjustedWorkEnd :=
        if settings.saturdayCompensation && compDays.contains dayOfWeek.toNat then
          workEndMin + 60
        else workEndMin
      { normal with punch := {
          entry1 := formatClock (workStartMin : ℤ)
          exit1 := formatClock (lunchStartMin : ℤ)
          entry2 := formatClock (lunchEndMin : ℤ)
          exit2 := formatClock (adjustedWorkEnd : ℤ) } }
    else if dayOfWeek = 6 && !settings.saturdayCompensation then
      { normal with punch := { normal.punch with
          entry1 := formatClock (saturdayStartMin : ℤ)
          exit1 := formatClock (saturdayEndMin : ℤ) } }
    else normal
  (normal, blankRow day date)

/-- Baseline `(normalRows, overtimeRows)` of `buildProjectedCardFromHolerith`
(utils.ts): the 31 card lines with their resolved dates and standard
schedules. -/
def projBaseRows (referenceMonth : JsStr) (settings : Settings) :
    List CardRow × List CardRow :=
  let parts := splitOnChar '-' referenceMonth
  let referenceYear := (jsNumber (parts.headD [])).getD 0
  let referenceMonthNumber := (jsNumber (parts.tail.headD [])).getD 0
  let cycleStartDay := jsOrNat settings.cycleStartDay 15
  let compDays := parseCompDaysUtils settings.compDays
  let rowPairs := (List.range 31).map
    (fun i => buildBaseRowPair settings referenceMonthNumber referenceYear cycleStartDay
      compDays (i + 1))
  (rowPairs.map Prod.fst, rowPairs.map Prod.snd)

/-- Lateness-distribution stage of `buildProjectedCardFromHolerith`. -/
def projAtraso (referenceMonth : JsStr) (settings : Settings) (parsed : ParsedHolerithData) :
    List CardRow × ℕ × ℕ :=
  distributeAtraso (projBaseRows referenceMonth settings).1 parsed.atrasoMinutes

/-- Date-sorted candidate day plans of `buildProjectedCardFromHolerith`. -/
def projDayPlans (referenceMonth : JsStr) (settings : Settings) : List DayPlan :=
  stableSort (fun a b => dateLt a.row.date b.row.date)
    (buildDayPlans (projBaseRows referenceMonth settings).2 settings)

/-- Weekly cap in minutes; the cap is whole hours, so
`Math.max(0, Math.round(limit * 60))` is `limit * 60`. -/
def projWeeklyLimitMinutes (settings : Settings) : ℕ := settings.weeklyLimit * 60

/-- Night cutoff in minutes (`Math.max(0, …)` is the identity on `ℕ`). -/
def projNightCutoffMinutes (settings : Settings) : ℕ :=
  timeToMinutes (jsOrStr settings.nightCutoff (("22:00").data))

/-- Allocation pass 1: Sunday tier-125 minutes. -/
def projS125 (referenceMonth : JsStr) (settings : Settings) (parsed : ParsedHolerithData) :
    List DayPlan × AccMap × ℕ :=
  allocateTypeMinutes (projDayPlans referenceMonth settings) .R125 parsed.he125Minutes []
    (projWeeklyLimitMinutes settings) (projNightCutoffMinutes settings) true false

/-- Allocation pass 2: Sunday tier-100 minutes. -/
def projS100 (referenceMonth : JsStr) (settings : Settings) (parsed : ParsedHolerithData) :
    List DayPlan × AccMap × ℕ :=
  allocateTypeMinutes (projS125 referenceMonth settings parsed).1 .R100 parsed.he100Minutes
    (projS125 referenceMonth settings parsed).2.1
    (projWeeklyLimitMinutes settings) (projNightCutoffMinutes settings) true false

/-- Allocation pass 3: non-Sunday tier-75 minutes within the weekly cap. -/
def projA75 (referenceMonth : JsStr) (settings : Settings) (parsed : ParsedHolerithData) :
    List DayPlan × AccMap × ℕ :=
  allocateTypeMinutes (projS100 referenceMonth settings parsed).1 .R75 parsed.he75Minutes
    (projS100 referenceMonth settings parsed).2.1
    (projWeeklyLimitMinutes settings) (projNightCutoffMinutes settings) false true

/-- Allocation pass 4: non-Sunday tier-50 minutes within the weekly cap. -/
def projA50 (referenceMonth : JsStr) (settings : Settings) (parsed : ParsedHolerithData) :
    List DayPlan × AccMap × ℕ :=
  allocateTypeMinutes (projA75 referenceMonth settings parsed).1 .R50 parsed.he50Minutes
    (projA75 referenceMonth settings parsed).2.1
    (projWeeklyLimitMinutes settings) (projNightCutoffMinutes settings) false true

/-- Allocation pass 5: non-Sunday tier-125 remainder
(`Math.max(0, he125 - sunday125)` is the truncated subtraction). -/
def projN125 (referenceMonth : JsStr) (settings : Settings) (parsed : ParsedHolerithData) :
    List DayPlan × AccMap × ℕ :=
  allocateTypeMinutes (projA50 referenceMonth settings parsed).1 .R125
    (parsed.he125Minutes - (projS125 referenceMonth settings parsed).2.2)
    (projA50 referenceMonth settings parsed).2.1
    (projWeeklyLimitMinutes settings) (projNightCutoffMinutes settings) false true

/-- Allocation pass 6: non-Sunday tier-100 remainder. -/
def projN100 (referenceMonth : JsStr) (settings : Settings) (parsed : ParsedHolerithData) :
    List DayPlan × AccMap × ℕ :=
  allocateTypeMinutes (projN125 referenceMonth settings parsed).1 .R100
    (parsed.he100Minutes - (projS100 referenceMonth settings parsed).2.2)
    (projN125 referenceMonth settings parsed).2.1
    (projWeeklyLimitMinutes settings) (projNightCutoffMinutes settings) false true

/-- Applied minute totals of the projection, per tier. -/
def projApplied (referenceMonth : JsStr) (settings : Settings) (parsed : ParsedHolerithData) :
    ProjectedSummary :=
  { atrasoMinutesApplied := (projAtraso referenceMonth settings parsed).2.2
    he50MinutesApplied := (projA50 referenceMonth settings parsed).2.2
    he75MinutesApplied := (projA75 referenceMonth settings parsed).2.2
    he100MinutesApplied := (projS100 referenceMonth settings parsed).2.2
      + (projN100 referenceMonth settings parsed).2.2
    he125MinutesApplied := (projS125 referenceMonth settings parsed).2.2
      + (projN125 referenceMonth settings parsed).2.2 }

/-- Tier shortfall warnings of the projection, in source push order. -/
def projTierWarnings (referenceMonth : JsStr) (settings : Settings)
    (parsed : ParsedHolerithData) : List JsStr :=
  (if 0 < parsed.he50Minutes -
      (projApplied referenceMonth settings parsed).he50MinutesApplied then
    [tierWarningText50 (parsed.he50Minutes -
      (projApplied referenceMonth settings parsed).he50MinutesApplied)] else [])
  ++ (if 0 < parsed.he75Minutes -
      (projApplied referenceMonth settings parsed).he75MinutesApplied then
    [tierWarningText75 (parsed.he75Minutes -
      (projApplied referenceMonth settings parsed).he75MinutesApplied)] else [])
  ++ (if 0 < parsed.he100Minutes -
      (projApplied referenceMonth settings parsed).he100MinutesApplied then
    [tierWarningText100 (parsed.he100Minutes -
      (projApplied referenceMonth settings parsed).he100MinutesApplied)] else [])
  ++ (if 0 < parsed.he125Minutes -
      (projApplied referenceMonth settings parsed).he125MinutesApplied then
    [tierWarningText125 (parsed.he125Minutes -
      (projApplied referenceMonth settings parsed).he125MinutesApplied)] else [])

/-- Embeds `buildProjectedCardFromHolerith` (utils.ts) as the composition
of the stages above: baseline rows, lateness trimming, the five
tier-allocation passes (Sunday 125/100 first, then within-limit 75/50,
then the non-Sunday 125/100 remainder), shortfall warnings, segment
application and totals. -/
def buildProjectedCardFromHolerith (referenceMonth : JsStr) (settings : Settings)
    (parsed : ParsedHolerithData) : ProjectedCardFromHolerith :=
  { hours := finalizeTotals (projAtraso referenceMonth settings parsed).1
    he := finalizeTotals
      (applySegmentsToRows (projN100 referenceMonth settings parsed).1
        (projBaseRows referenceMonth settings).2).1
    summary := projApplied referenceMonth settings parsed
    warnings :=
      (if 0 < (projAtraso referenceMonth settings parsed).2.1 then
        [atrasoWarningText (projAtraso referenceMonth settings parsed).2.1] else [])
      ++ projTierWarnings referenceMonth settings parsed
      ++ (applySegmentsToRows (projN100 referenceMonth settings parsed).1
          (projBaseRows referenceMonth settings).2).2 }

/-- View a projected card row as an engine entry of the given card type
(the glue the app applies before re-classifying a projected card). -/
def cardRowToEntry (isOvertimeCard : Bool) (row : CardRow) : TimeEntry :=
  { date := row.date
    punch := row.punch
    isOvertimeCard := isOvertimeCard
    isDPAnnotation := row.isDPAnnotation }

/-- Round trip of §4.6/§4.4: feed both output cards of the Projection
Allocator back through the overtime classifier. -/
def reclassifyProjection (proj : ProjectedCardFromHolerith) (settings : Settings) :
    OvertimeComputationResult :=
  runOvertimeEngine
    (proj.hours.map (cardRowToEntry false) ++ proj.he.map (cardRowToEntry true)) settings

/-! ## Claim theorems -/

set_option maxRecDepth 200000

/-- Claim C7: for every card line number `day` (1–31) and valid reference
month, `cycleStartDay ≤ 1` resolves the work date to the day in the
reference month, and `cycleStartDay > 1` with `day > cycleStartDay`
resolves it to the day in the month before the reference month (December
of the prior year when the reference month is January); in particular with
`cycleStartDay = 15` and reference 03/2026, line 20 resolves to
`2026-02-20` and line 10 resolves to `2026-03-10`. -/
theorem claim_C7 (day referenceMonth referenceYear cycleStartDay : ℕ)
    (_hd : 1 ≤ day ∧ day ≤ 31) (hm : 1 ≤ referenceMonth ∧ referenceMonth ≤ 12) :
    (cycleStartDay ≤ 1 →
      resolveWorkDateTriple day referenceMonth referenceYear cycleStartDay =
        ⟨referenceYear, referenceMonth, day⟩) ∧
    (1 < cycleStartDay → cycleStartDay < day →
      resolveWorkDateTriple day referenceMonth referenceYear cycleStartDay =
        (if referenceMonth = 1 then (⟨referenceYear - 1, 12, day⟩ : DateT)
          else ⟨referenceYear, referenceMonth - 1, day⟩)) ∧
    (1 < cycleStartDay → day ≤ cycleStartDay →
      resolveWorkDateTriple day referenceMonth referenceYear cycleStartDay =
        ⟨referenceYear, referenceMonth, day⟩) ∧
    resolveWorkDateByCompetenciaDay 20 3 2026 15 = ("2026-02-20").data ∧
    resolveWorkDateByCompetenciaDay 10 3 2026 15 = ("2026-03-10").data := by
  refine ⟨?_, ?_, ?_, by decide, by decide⟩
  · intro hc
    rw [resolveWorkDateTriple, if_neg]
    omega
  · intro hc hcd
    rw [resolveWorkDateTriple, if_pos ⟨hc, hcd⟩]
    rcases Nat.eq_or_lt_of_le hm.1 with h1 | h1
    · rw [if_pos (by omega), if_pos (by omega)]
    · rw [if_neg (by omega), if_neg (by omega)]
  · intro hc hcd
    rw [resolveWorkDateTriple, if_neg]
    omega

/-- Witness for C7 at line 20, reference 03/2026, `cycleStartDay = 15`. -/
theorem claim_C7_witness :
    ((1 ≤ 20 ∧ 20 ≤ 31) ∧ (1 ≤ 3 ∧ 3 ≤ 12)) ∧
    ((15 ≤ 1 →
      resolveWorkDateTriple 20 3 2026 15 = ⟨2026, 3, 20⟩) ∧
    (1 < 15 → 15 < 20 →
      resolveWorkDateTriple 20 3 2026 15 =
        (if 3 = 1 then (⟨2025, 12, 20⟩ : DateT) else ⟨2026, 2, 20⟩)) ∧
    (1 < 15 → 20 ≤ 15 →
      resolveWorkDateTriple 20 3 2026 15 = ⟨2026, 3, 20⟩) ∧
    resolveWorkDateByCompetenciaDay 20 3 2026 15 = ("2026-02-20").data ∧
    resolveWorkDateByCompetenciaDay 10 3 2026 15 = ("2026-03-10").data) :=
  ⟨by decide, claim_C7 20 3 2026 15 (by decide) (by decide)⟩

/-- Roundtrip property of a formatted minute value: parsing returns the
value and the hour field stays below 24. -/
def clockRoundtripAt (v : ℕ) : Prop :=
  timeToMinutes (minutesToTime v) = v ∧ v / 60 < 24

instance (v : ℕ) : Decidable (clockRoundtripAt v) := by
  unfold clockRoundtripAt
  infer_instance

/-- Roundtrip check on the first quarter of the day. -/
theorem clockRoundtrip_chunk0 : ∀ v < 360, clockRoundtripAt v := by decide

/-- Roundtrip check on the second quarter of the day. -/
theorem clockRoundtrip_chunk1 : ∀ v < 360, clockRoundtripAt (360 + v) := by decide

/-- Roundtrip check on the third quarter of the day. -/
theorem clockRoundtrip_chunk2 : ∀ v < 360, clockRoundtripAt (720 + v) := by decide

/-- Roundtrip check on the last quarter of the day. -/
theorem clockRoundtrip_chunk3 : ∀ v < 360, clockRoundtripAt (1080 + v) := by decide

/-- Every minute value below 1440 formats and parses back to itself with
an in-range hour field. -/
theorem clockRoundtrip (v : ℕ) (h : v < 1440) : clockRoundtripAt v := by
  rcases Nat.lt_or_ge v 360 with h0 | h0
  · exact clockRoundtrip_chunk0 v h0
  rcases Nat.lt_or_ge v 720 with h1 | h1
  · have := clockRoundtrip_chunk1 (v - 360) (by omega)
    rwa [Nat.add_sub_cancel' h0] at this
  rcases Nat.lt_or_ge v 1080 with h2 | h2
  · have := clockRoundtrip_chunk2 (v - 720) (by omega)
    rwa [Nat.add_sub_cancel' h1] at this
  · have := clockRoundtrip_chunk3 (v - 1080) (by omega)
    rwa [Nat.add_sub_cancel' h2] at this

/-- On a natural minute count the `formatClock` remainder dance reduces to
`m % 1440`, so `formatClock` formats exactly `m` modulo 1440. -/
theorem formatClock_natCast (m : ℕ) : formatClock (m : ℤ) = minutesToTime (m % 1440) := by
  unfold formatClock minutesToTime
  have h1 : (m : ℤ).tmod (24 * 60) = ((m % 1440 : ℕ) : ℤ) := rfl
  rw [h1]
  have h2 : ((m % 1440 : ℕ) : ℤ) + 24 * 60 = ((m % 1440 + 1440 : ℕ) : ℤ) := by push_cast; ring
  rw [h2]
  have h3 : ((m % 1440 + 1440 : ℕ) : ℤ).tmod (24 * 60) =
      (((m % 1440 + 1440) % 1440 : ℕ) : ℤ) := rfl
  rw [h3]
  have h4 : (m % 1440 + 1440) % 1440 = m % 1440 := by omega
  rw [h4, Int.toNat_natCast]

/-- Counterexample to claim C9: `minutesToTime` performs no modulo-1440
reduction — at 1500 minutes it prints `25:00` (hour field above 23) and
parsing returns 1500, not `1500 % 1440 = 60`. -/
theorem claim_C9_counterexample :
    minutesToTime 1500 = ("25:00").data ∧
    1500 % 1440 = 60 ∧
    minutesToTime (1500 % 1440) = ("01:00").data ∧
    minutesToTime 1500 ≠ minutesToTime (1500 % 1440) ∧
    timeToMinutes (minutesToTime 1500) = 1500 := by decide

/-- Amended claim C9: the modulo-1440 zero-padded formatter of the code
base is `formatClock`: for every non-negative integer minute count it
produces the `HH:MM` string of `m % 1440` (the same string `minutesToTime`
produces for the reduced value), parsing it returns `m % 1440`, and its
hour field is always in 00–23.  `minutesToTime` itself satisfies this only
for `m < 1440`. -/
theorem claim_C9_amended (m : ℕ) :
    formatClock (m : ℤ) = minutesToTime (m % 1440) ∧
    timeToMinutes (formatClock (m : ℤ)) = m % 1440 ∧
    m % 1440 / 60 < 24 := by
  have hm : m % 1440 < 1440 := Nat.mod_lt _ (by omega)
  have h1 := formatClock_natCast m
  have h2 := clockRoundtrip (m % 1440) hm
  exact ⟨h1, by rw [h1]; exact h2.1, h2.2⟩

/-- Day-of-month bound of week 1 as the code computes it:
`7 - (mondayBasedWeekdayOfTheFirst % 7)`. -/
def week1Cutoff (y m : ℕ) : ℕ :=
  7 - ((getDayJS ⟨y, m, 1⟩ + 6) % 7 + 1) % 7

/-- Counterexample to claim C2: in January 2026 the first Sunday is day 4
(days 1–3 are not Sundays), yet the grouping key puts day 4 into week 2,
not week 1. -/
theorem claim_C2_counterexample :
    getDayJS ⟨2026, 1, 4⟩ = 0 ∧
    (∀ d, 1 ≤ d → d < 4 → getDayJS ⟨2026, 1, d⟩ ≠ 0) ∧
    getCustomWeekIndex ⟨2026, 1, 4⟩ = 2 ∧
    getCustomWeekKey ⟨2026, 1, 4⟩ ≠ ⟨2026, 1, 1⟩ := by decide

/-- Amended claim C2: week 1 of the custom grouping runs from the 1st of
the month through the first **Saturday** inclusive (`week1Cutoff`), and
every subsequent week is a **Sunday-through-Saturday** block: the week
index increments exactly when the next day is a Sunday.  In particular the
first Sunday of the month starts week 2. -/
theorem claim_C2_amended (y m d : ℕ) (hd : 1 ≤ d) :
    (getCustomWeekIndex ⟨y, m, d⟩ = 1 ↔ d ≤ week1Cutoff y m) ∧
    getDayJS ⟨y, m, week1Cutoff y m⟩ = 6 ∧
    1 ≤ week1Cutoff y m ∧ week1Cutoff y m ≤ 7 ∧
    (∀ e, 1 ≤ e → e < week1Cutoff y m → getDayJS ⟨y, m, e⟩ ≠ 6) ∧
    (getCustomWeekIndex ⟨y, m, d + 1⟩ =
      getCustomWeekIndex ⟨y, m, d⟩ +
        (if getDayJS ⟨y, m, d + 1⟩ = 0 then 1 else 0)) := by
  have hday : ∀ k, getDayJS ⟨y, m, k⟩ = (weekA y m + k) % 7 := fun _ => rfl
  simp only [getCustomWeekIndex, week1Cutoff, hday]
  set A := weekA y m with hA
  refine ⟨?_, ?_, ?_, ?_, ?_, ?_⟩
  · split <;> omega
  · omega
  · omega
  · omega
  · intro e h1 h2 h3
    omega
  · split_ifs <;> omega

/-- Witness for the amended claim C2 at January 2026, day 3 (the first
Saturday of that month). -/
theorem claim_C2_amended_witness :
    1 ≤ 3 ∧
    ((getCustomWeekIndex ⟨2026, 1, 3⟩ = 1 ↔ 3 ≤ week1Cutoff 2026 1) ∧
    getDayJS ⟨2026, 1, week1Cutoff 2026 1⟩ = 6 ∧
    1 ≤ week1Cutoff 2026 1 ∧ week1Cutoff 2026 1 ≤ 7 ∧
    (∀ e, 1 ≤ e → e < week1Cutoff 2026 1 → getDayJS ⟨2026, 1, e⟩ ≠ 6) ∧
    (getCustomWeekIndex ⟨2026, 1, 3 + 1⟩ =
      getCustomWeekIndex ⟨2026, 1, 3⟩ +
        (if getDayJS ⟨2026, 1, 3 + 1⟩ = 0 then 1 else 0))) :=
  ⟨by decide, claim_C2_amended 2026 1 3 (by decide)⟩

/-- Claim C10: at the public entry point, `null`/`undefined` entries make
`calculateOvertime` return `null` (no exception, no empty totals object),
while a present entries list always yields the full engine result. -/
theorem claim_C10 :
    (∀ s : Settings, calculateOvertime none (some s) = Except.ok none) ∧
    (∀ (entries : List TimeEntry) (s : Settings),
      calculateOvertime (some entries) (some s) =
        Except.ok (some (runOvertimeEngine entries s))) :=
  ⟨fun _ => rfl, fun _ _ => rfl⟩

/-- Spec-side INSS formula of claim C4: progressive sum over the four
brackets applied to `min(max(0, gross), 8475.55)`, each bracket taxing
only its marginal span between the previous limit and its own limit. -/
def inssProgressiveSpec (gross : ℚ) : ℚ :=
  let base := min (max 0 gross) 8475.55
  0.075 * max 0 (min base 1621.00 - 0) + 0.09 * max 0 (min base 2902.84 - 1621.00)
    + 0.12 * max 0 (min base 4354.27 - 2902.84) + 0.14 * max 0 (min base 8475.55 - 4354.27)

/-- Claim C4: for every gross pay value, the INSS withholding of the
payroll engine equals the progressive four-bracket sum on the clamped
base. -/
theorem claim_C4 (gross : ℚ) : calcInss gross = inssProgressiveSpec gross := by
  unfold calcInss inssProgressiveSpec
  simp only [INSS_FAIXAS_2026, inssLoop]
  have hb0' : (0 : ℚ) ≤ min (max 0 gross) 8475.55 := le_min (le_max_left _ _) (by norm_num)
  generalize hbdef : min (max 0 gross) (8475.55 : ℚ) = b
  rw [hbdef] at hb0'
  have hb1 : b ≤ 8475.55 := hbdef ▸ min_le_right _ _
  have e1 : min b (1621.00 - 0 : ℚ) = min b 1621 := by norm_num
  have e2 : (2902.84 - 1621.00 : ℚ) = 1281.84 := by norm_num
  have e3 : (4354.27 - 2902.84 : ℚ) = 1451.43 := by norm_num
  have e4 : (8475.55 - 4354.27 : ℚ) = 4121.28 := by norm_num
  rw [e1, e2, e3, e4]
  rcases le_or_lt b 0 with h1 | h1
  · have hb : b = 0 := le_antisymm h1 hb0'
    rw [if_pos h1, hb]
    norm_num
  · rw [if_neg (by linarith)]
    rcases le_or_lt b 1621 with h2 | h2
    · have m1 : min b (1621 : ℚ) = b := min_eq_left (by linarith)
      have r0 : min b (1621.00 : ℚ) = b := min_eq_left (by linarith)
      have r1 : min b (2902.84 : ℚ) = b := min_eq_left (by linarith)
      have r2 : min b (4354.27 : ℚ) = b := min_eq_left (by linarith)
      have r3 : min b (8475.55 : ℚ) = b := min_eq_left (by linarith)
      rw [m1, r0, r1, r2, r3, if_pos (by linarith),
        max_eq_right (by linarith : (0 : ℚ) ≤ b - 0),
        max_eq_left (by linarith : b - 1621.00 ≤ (0 : ℚ)),
        max_eq_left (by linarith : b - 2902.84 ≤ (0 : ℚ)),
        max_eq_left (by linarith : b - 4354.27 ≤ (0 : ℚ))]
      ring
    · have m1 : min b (1621 : ℚ) = 1621 := min_eq_right (by linarith)
      have r0 : min b (1621.00 : ℚ) = 1621.00 := min_eq_right (by linarith)
      rw [m1, r0, if_neg (by linarith)]
      rcases le_or_lt b 2902.84 with h3 | h3
      · have m2 : min (b - 1621) (1281.84 : ℚ) = b - 1621 := min_eq_left (by linarith)
        have r1 : min b (2902.84 : ℚ) = b := min_eq_left (by linarith)
        have r2 : min b (4354.27 : ℚ) = b := min_eq_left (by linarith)
        have r3 : min b (8475.55 : ℚ) = b := min_eq_left (by linarith)
        rw [m2, r1, r2, r3, if_pos (by linarith),
          max_eq_right (by norm_num : (0 : ℚ) ≤ 1621.00 - 0),
          max_eq_right (by linarith : (0 : ℚ) ≤ b - 1621.00),
          max_eq_left (by linarith : b - 2902.84 ≤ (0 : ℚ)),
          max_eq_left (by linarith : b - 4354.27 ≤ (0 : ℚ))]
        ring
      · have m2 : min (b - 1621) (1281.84 : ℚ) = 1281.84 := min_eq_right (by linarith)
        rw [m2, if_neg (by linarith)]
        rcases le_or_lt b 4354.27 with h4 | h4
        · have m3 : min (b - 1621 - 1281.84) (1451.43 : ℚ) = b - 1621 - 1281.84 :=
            min_eq_left (by linarith)
          have r1 : min b (2902.84 : ℚ) = 2902.84 := min_eq_right (by linarith)
          have r2 : min b (4354.27 : ℚ) = b := min_eq_left (by linarith)
          have r3 : min b (8475.55 : ℚ) = b := min_eq_left (by linarith)
          rw [m3, r1, r2, r3, if_pos (by linarith),
            max_eq_right (by norm_num : (0 : ℚ) ≤ 1621.00 - 0),
            max_eq_right (by norm_num : (0 : ℚ) ≤ 2902.84 - 1621.00),
            max_eq_right (by linarith : (0 : ℚ) ≤ b - 2902.84),
            max_eq_left (by linarith : b - 4354.27 ≤ (0 : ℚ))]
          ring
        · have m3 : min (b - 1621 - 1281.84) (1451.43 : ℚ) = 1451.43 :=
            min_eq_right (by linarith)
          rw [m3, if_neg (by linarith)]
          have m4 : min (b - 1621 - 1281.84 - 1451.43) (4121.28 : ℚ) =
              b - 1621 - 1281.84 - 1451.43 := min_eq_left (by linarith)
          have r1 : min b (2902.84 : ℚ) = 2902.84 := min_eq_right (by linarith)
          have r2 : min b (4354.27 : ℚ) = 4354.27 := min_eq_right (by linarith)
          have r3 : min b (8475.55 : ℚ) = b := min_eq_left (by linarith)
          rw [m4, r1, r2, r3,
            max_eq_right (by norm_num : (0 : ℚ) ≤ 1621.00 - 0),
            max_eq_right (by norm_num : (0 : ℚ) ≤ 2902.84 - 1621.00),
            max_eq_right (by norm_num : (0 : ℚ) ≤ 4354.27 - 2902.84),
            max_eq_right (by linarith : (0 : ℚ) ≤ b - 4354.27)]
          ring

/-- Floors written `if t < 0 then 0 else t` in the source are the
`max 0 t` of the specification. -/
theorem ite_neg_eq_max (t : ℚ) : (if t < 0 then (0 : ℚ) else t) = max 0 t := by
  split_ifs with h
  · rw [max_eq_left (by linarith)]
  · rw [max_eq_right (by linarith)]

/-- Spec-side traditional monthly IR table of claim C5 (five brackets with
fixed deductions, floored at zero). -/
def irTraditionalSpec (baseIR : ℚ) : ℚ :=
  max 0
    (if baseIR ≤ 2428.80 then 0
     else if baseIR ≤ 2826.65 then baseIR * 0.075 - 182.16
     else if baseIR ≤ 3751.05 then baseIR * 0.15 - 394.16
     else if baseIR ≤ 4664.68 then baseIR * 0.225 - 675.49
     else baseIR * 0.275 - 908.73)

/-- Spec-side monthly reducer of claim C5: `R = T` for gross up to 5000,
`max(0, 978.62 − 0.133145×gross)` up to 7350, zero above. -/
def irReducerSpec (gross T : ℚ) : ℚ :=
  if gross ≤ 5000 then T
  else if gross ≤ 7350 then max 0 (978.62 - 0.133145 * gross)
  else 0

/-- Claim C5: the total IR due equals `max(0, T − R)` with `T` the
traditional five-bracket table on `gross − INSS − dependents×189.59` and
`R` the monthly reducer computed from the gross — both regimes applied
simultaneously. -/
theorem claim_C5 (gross : ℚ) (dependentes : ℕ) :
    calcIrTotal gross dependentes =
      max 0
        (irTraditionalSpec (gross - calcInss gross - (dependentes : ℚ) * 189.59) -
          irReducerSpec gross
            (irTraditionalSpec (gross - calcInss gross - (dependentes : ℚ) * 189.59))) := by
  unfold calcIrTotal irTraditionalSpec irReducerSpec irBaseTradicional redutorMensal2026
  simp only [ite_neg_eq_max]

/-- Spec-side night test of claim C1: a walked minute is night iff its
minute-of-day is at least the configured night cutoff or below 300
(05:00). -/
def specNightMinute (minuteFloor nightCutoff : ℕ) : Bool :=
  decide (nightCutoff ≤ minuteFloor) || decide (minuteFloor < 300)

/-- Spec-side tier assignment of one overtime minute per claim C1:
Sunday sends night minutes to tier-125 and day minutes to tier-100;
otherwise, while the running weekly accumulator is below the cap (or the
cap is 0, meaning unlimited) night goes to tier-75 and day to tier-50,
and once the cap is reached night goes to tier-125 and day to tier-100. -/
def specMinuteTier (isSunday night : Bool) (cap acc : ℕ) : RateType :=
  if isSunday then (if night then .R125 else .R100)
  else if cap = 0 ∨ acc < cap then (if night then .R75 else .R50)
  else (if night then .R125 else .R100)

/-- Spec-side count of the walked minutes `p < n` that claim C1 assigns to
tier `t`, walking backward from the clock-out with start offset
`processed0` and running accumulator `acc0 + p`. -/
def specTierCount (isSunday : Bool) (cutoff cap dayEnd n acc0 processed0 : ℕ)
    (t : RateType) : ℕ :=
  (List.range n).countP (fun p =>
    specMinuteTier isSunday (specNightMinute (minuteOfDayFloorAt dayEnd (processed0 + p)) cutoff)
      cap (acc0 + p) == t)

/-- Bump the counter pair of the given tier. -/
def applyTier (t : RateType) (st : ClassifyState) : ClassifyState :=
  match t with
  | .R50 => add50 st
  | .R75 => add75 st
  | .R100 => add100 st
  | .R125 => add125 st

/-- Bump the weekly overtime accumulator. -/
def bumpAcc (st : ClassifyState) : ClassifyState :=
  { st with week := { st.week with
      weekOvertimeAccumulator := st.week.weekOvertimeAccumulator + 1 } }

/-- Engine night test and spec-side night test agree. -/
theorem specNightMinute_eq (f c : ℕ) : specNightMinute f c = isNightEngine f c := rfl

/-- Source cap test and the claim's "below the cap, or cap 0 means
unlimited" agree. -/
theorem withinLimit_eq (cap acc : ℕ) :
    (if 0 < cap then decide (acc < cap) else true) = decide (cap = 0 ∨ acc < cap) := by
  by_cases h : cap = 0
  · subst h
    simp
  · rw [if_pos (by omega)]
    simp [h]

/-- One engine classification step performs exactly the spec-side tier
bump, plus the accumulator bump on non-Sundays. -/
theorem classifyOneMinute_applyTier (isSunday : Bool) (cutoff weeklyLimit dayEnd processed : ℕ)
    (st : ClassifyState) :
    classifyOneMinute isSunday cutoff weeklyLimit dayEnd processed st =
      (if isSunday then
        applyTier (specMinuteTier isSunday
          (specNightMinute (minuteOfDayFloorAt dayEnd processed) cutoff)
          (weeklyLimit * 60) st.week.weekOvertimeAccumulator) st
      else
        bumpAcc (applyTier (specMinuteTier isSunday
          (specNightMinute (minuteOfDayFloorAt dayEnd processed) cutoff)
          (weeklyLimit * 60) st.week.weekOvertimeAccumulator) st)) := by
  simp only [classifyOneMinute, withinLimit_eq, specNightMinute_eq]
  by_cases hs : isSunday <;>
    by_cases hl : (weeklyLimit = 0 ∨ st.week.weekOvertimeAccumulator < weeklyLimit * 60) <;>
      cases hn : isNightEngine (minuteOfDayFloorAt dayEnd processed) cutoff <;>
        simp [hs, hl, hn, specMinuteTier, applyTier, bumpAcc, add50, add75, add100, add125]

/-- Count unfolding for one more walked minute. -/
theorem specTierCount_succ (isSunday : Bool) (cutoff cap dayEnd n acc0 processed0 : ℕ)
    (t : RateType) :
    specTierCount isSunday cutoff cap dayEnd (n + 1) acc0 processed0 t =
      (if specMinuteTier isSunday (specNightMinute (minuteOfDayFloorAt dayEnd processed0) cutoff)
          cap acc0 = t then 1 else 0)
        + specTierCount isSunday cutoff cap dayEnd n (acc0 + 1) (processed0 + 1) t := by
  unfold specTierCount
  rw [List.range_succ_eq_map, List.countP_cons, List.countP_map]
  have hsh : ∀ p : ℕ,
      (specMinuteTier isSunday
          (specNightMinute (minuteOfDayFloorAt dayEnd (processed0 + Nat.succ p)) cutoff)
          cap (acc0 + Nat.succ p) == t)
        = (specMinuteTier isSunday
            (specNightMinute (minuteOfDayFloorAt dayEnd (processed0 + 1 + p)) cutoff)
            cap (acc0 + 1 + p) == t) := by
    intro p
    rw [show processed0 + Nat.succ p = processed0 + 1 + p by omega,
      show acc0 + Nat.succ p = acc0 + 1 + p by omega]
  calc (List.range n).countP
        ((fun p => specMinuteTier isSunday
          (specNightMinute (minuteOfDayFloorAt dayEnd (processed0 + p)) cutoff)
          cap (acc0 + p) == t) ∘ Nat.succ)
        + (if (specMinuteTier isSunday
            (specNightMinute (minuteOfDayFloorAt dayEnd (processed0 + 0)) cutoff)
            cap (acc0 + 0) == t) = true then 1 else 0)
      = (List.range n).countP (fun p => specMinuteTier isSunday
          (specNightMinute (minuteOfDayFloorAt dayEnd (processed0 + 1 + p)) cutoff)
          cap (acc0 + 1 + p) == t)
        + (if (specMinuteTier isSunday
            (specNightMinute (minuteOfDayFloorAt dayEnd (processed0 + 0)) cutoff)
            cap (acc0 + 0) == t) = true then 1 else 0) := by
        rw [List.countP_congr (fun p _ => by rw [Function.comp_apply, hsh p])]
    _ = _ := by
        rw [Nat.add_comm]
        congr 1
        simp [beq_iff_eq]

/-- On Sundays the spec-side count ignores the accumulator argument. -/
theorem specTierCount_sunday_acc (cutoff cap dayEnd n acc0 acc1 processed0 : ℕ) (t : RateType) :
    specTierCount true cutoff cap dayEnd n acc0 processed0 t =
      specTierCount true cutoff cap dayEnd n acc1 processed0 t := by
  unfold specTierCount
  exact List.countP_congr (fun p _ => by rw [specMinuteTier, specMinuteTier]; simp)

/-- Loop-level form of claim C1: the engine's minute-classification loop
adds to each tier exactly the number of walked minutes the specification
assigns to that tier, leaves banked hours alone, and advances the weekly
accumulator by the minute count except on Sundays. -/
theorem classifyLoop_spec (isSunday : Bool) (cutoff weeklyLimit dayEnd : ℕ) :
    ∀ (k processed : ℕ) (st : ClassifyState),
      classifyLoop isSunday cutoff weeklyLimit dayEnd k processed st =
        { week := {
            total50Minutes := st.week.total50Minutes + specTierCount isSunday cutoff
              (weeklyLimit * 60) dayEnd k st.week.weekOvertimeAccumulator processed .R50
            total75Minutes := st.week.total75Minutes + specTierCount isSunday cutoff
              (weeklyLimit * 60) dayEnd k st.week.weekOvertimeAccumulator processed .R75
            total100Minutes := st.week.total100Minutes + specTierCount isSunday cutoff
              (weeklyLimit * 60) dayEnd k st.week.weekOvertimeAccumulator processed .R100
            total125Minutes := st.week.total125Minutes + specTierCount isSunday cutoff
              (weeklyLimit * 60) dayEnd k st.week.weekOvertimeAccumulator processed .R125
            totalBancoHoras := st.week.totalBancoHoras
            weekOvertimeAccumulator := st.week.weekOvertimeAccumulator +
              (if isSunday then 0 else k) }
          grand := {
            total50Minutes := st.grand.total50Minutes + specTierCount isSunday cutoff
              (weeklyLimit * 60) dayEnd k st.week.weekOvertimeAccumulator processed .R50
            total75Minutes := st.grand.total75Minutes + specTierCount isSunday cutoff
              (weeklyLimit * 60) dayEnd k st.week.weekOvertimeAccumulator processed .R75
            total100Minutes := st.grand.total100Minutes + specTierCount isSunday cutoff
              (weeklyLimit * 60) dayEnd k st.week.weekOvertimeAccumulator processed .R100
            total125Minutes := st.grand.total125Minutes + specTierCount isSunday cutoff
              (weeklyLimit * 60) dayEnd k st.week.weekOvertimeAccumulator processed .R125
            totalBancoHoras := st.grand.totalBancoHoras } } := by
  cases isSunday with
  | true =>
    intro k
    induction k with
    | zero =>
      intro processed st
      simp [classifyLoop, specTierCount]
    | succ k ih =>
      intro processed st
      rw [classifyLoop, classifyOneMinute_applyTier]
      simp only [if_true]
      cases hn : specNightMinute (minuteOfDayFloorAt dayEnd processed) cutoff <;>
        rw [ih] <;>
          simp [specTierCount_succ, hn, specMinuteTier, applyTier,
            add50, add75, add100, add125,
            specTierCount_sunday_acc cutoff (weeklyLimit * 60) dayEnd k
              (st.week.weekOvertimeAccumulator + 1) st.week.weekOvertimeAccumulator
              (processed + 1)] <;>
            omega
  | false =>
    intro k
    induction k with
    | zero =>
      intro processed st
      simp [classifyLoop, specTierCount]
    | succ k ih =>
      intro processed st
      rw [classifyLoop, classifyOneMinute_applyTier]
      simp only [Bool.false_eq_true, if_false]
      rw [ih]
      rcases ht : specMinuteTier false
          (specNightMinute (minuteOfDayFloorAt dayEnd processed) cutoff)
          (weeklyLimit * 60) st.week.weekOvertimeAccumulator with _ | _ | _ | _ <;>
        simp [specTierCount_succ, ht, bumpAcc, applyTier, add50, add75, add100, add125] <;>
          omega

/-- Claim C1: for every overtime-card day with positive overtime minutes,
the classifier walks the minutes backward from the last clock-out and
assigns each one per the spec-side tier rule (`specMinuteTier`): night iff
minute-of-day ≥ cutoff or < 300; Sunday night → 125 and day → 100 with no
accumulator change; non-Sunday 75/50 below the cap (cap 0 = unlimited) and
125/100 once reached, with every non-Sunday minute incrementing the weekly
accumulator by exactly 1. -/
theorem claim_C1 (ctx : DayRuleContext) (hot : ctx.isOvertimeCardEntry = true)
    (hpos : 0 < ctx.dayOvertimeMinutes) :
    ((classifyAndAccumulateRule ctx).week.total50Minutes =
      ctx.week.total50Minutes + specTierCount ctx.isSunday ctx.nightCutoffMinutes
        (ctx.settings.weeklyLimit * 60) ctx.dayEndMinutes ctx.dayOvertimeMinutes
        ctx.week.weekOvertimeAccumulator 0 .R50) ∧
    ((classifyAndAccumulateRule ctx).week.total75Minutes =
      ctx.week.total75Minutes + specTierCount ctx.isSunday ctx.nightCutoffMinutes
        (ctx.settings.weeklyLimit * 60) ctx.dayEndMinutes ctx.dayOvertimeMinutes
        ctx.week.weekOvertimeAccumulator 0 .R75) ∧
    ((classifyAndAccumulateRule ctx).week.total100Minutes =
      ctx.week.total100Minutes + specTierCount ctx.isSunday ctx.nightCutoffMinutes
        (ctx.settings.weeklyLimit * 60) ctx.dayEndMinutes ctx.dayOvertimeMinutes
        ctx.week.weekOvertimeAccumulator 0 .R100) ∧
    ((classifyAndAccumulateRule ctx).week.total125Minutes =
      ctx.week.total125Minutes + specTierCount ctx.isSunday ctx.nightCutoffMinutes
        (ctx.settings.weeklyLimit * 60) ctx.dayEndMinutes ctx.dayOvertimeMinutes
        ctx.week.weekOvertimeAccumulator 0 .R125) ∧
    ((classifyAndAccumulateRule ctx).week.totalBancoHoras = ctx.week.totalBancoHoras) ∧
    ((classifyAndAccumulateRule ctx).week.weekOvertimeAccumulator =
      ctx.week.weekOvertimeAccumulator +
        (if ctx.isSunday then 0 else ctx.dayOvertimeMinutes)) ∧
    ((classifyAndAccumulateRule ctx).grand.total50Minutes =
      ctx.grand.total50Minutes + specTierCount ctx.isSunday ctx.nightCutoffMinutes
        (ctx.settings.weeklyLimit * 60) ctx.dayEndMinutes ctx.dayOvertimeMinutes
        ctx.week.weekOvertimeAccumulator 0 .R50) ∧
    ((classifyAndAccumulateRule ctx).grand.total75Minutes =
      ctx.grand.total75Minutes + specTierCount ctx.isSunday ctx.nightCutoffMinutes
        (ctx.settings.weeklyLimit * 60) ctx.dayEndMinutes ctx.dayOvertimeMinutes
        ctx.week.weekOvertimeAccumulator 0 .R75) ∧
    ((classifyAndAccumulateRule ctx).grand.total100Minutes =
      ctx.grand.total100Minutes + specTierCount ctx.isSunday ctx.nightCutoffMinutes
        (ctx.settings.weeklyLimit * 60) ctx.dayEndMinutes ctx.dayOvertimeMinutes
        ctx.week.weekOvertimeAccumulator 0 .R100) ∧
    ((classifyAndAccumulateRule ctx).grand.total125Minutes =
      ctx.grand.total125Minutes + specTierCount ctx.isSunday ctx.nightCutoffMinutes
        (ctx.settings.weeklyLimit * 60) ctx.dayEndMinutes ctx.dayOvertimeMinutes
        ctx.week.weekOvertimeAccumulator 0 .R125) ∧
    ((classifyAndAccumulateRule ctx).grand.totalBancoHoras = ctx.grand.totalBancoHoras) := by
  unfold classifyAndAccumulateRule
  rw [if_neg (by omega), if_neg (by simp [hot])]
  rw [classifyLoop_spec]
  simp

/-- Concrete overtime-card day context: non-Sunday, 90 overtime minutes
walked back from 23:00 with a 22:00 cutoff and no weekly cap. -/
def ctxC1 : DayRuleContext := {
  entry := { date := ⟨2026, 6, 1⟩ }
  settings := {}
  nightCutoffMinutes := 1320
  week := {}
  grand := {}
  isSunday := false
  isOvertimeCardEntry := true
  dailyTotalMinutes := 90
  dayOvertimeMinutes := 90
  dayEndMinutes := 1380 }

/-- Witness for claim C1 at `ctxC1`: 60 night minutes land in tier-75,
30 day minutes in tier-50, and the accumulator advances by 90. -/
theorem claim_C1_witness :
    (ctxC1.isOvertimeCardEntry = true ∧ 0 < ctxC1.dayOvertimeMinutes) ∧
    (((classifyAndAccumulateRule ctxC1).week.total50Minutes =
      ctxC1.week.total50Minutes + specTierCount ctxC1.isSunday ctxC1.nightCutoffMinutes
        (ctxC1.settings.weeklyLimit * 60) ctxC1.dayEndMinutes ctxC1.dayOvertimeMinutes
        ctxC1.week.weekOvertimeAccumulator 0 .R50) ∧
    ((classifyAndAccumulateRule ctxC1).week.total75Minutes =
      ctxC1.week.total75Minutes + specTierCount ctxC1.isSunday ctxC1.nightCutoffMinutes
        (ctxC1.settings.weeklyLimit * 60) ctxC1.dayEndMinutes ctxC1.dayOvertimeMinutes
        ctxC1.week.weekOvertimeAccumulator 0 .R75) ∧
    ((classifyAndAccumulateRule ctxC1).week.total100Minutes =
      ctxC1.week.total100Minutes + specTierCount ctxC1.isSunday ctxC1.nightCutoffMinutes
        (ctxC1.settings.weeklyLimit * 60) ctxC1.dayEndMinutes ctxC1.dayOvertimeMinutes
        ctxC1.week.weekOvertimeAccumulator 0 .R100) ∧
    ((classifyAndAccumulateRule ctxC1).week.total125Minutes =
      ctxC1.week.total125Minutes + specTierCount ctxC1.isSunday ctxC1.nightCutoffMinutes
        (ctxC1.settings.weeklyLimit * 60) ctxC1.dayEndMinutes ctxC1.dayOvertimeMinutes
        ctxC1.week.weekOvertimeAccumulator 0 .R125) ∧
    ((classifyAndAccumulateRule ctxC1).week.totalBancoHoras = ctxC1.week.totalBancoHoras) ∧
    ((classifyAndAccumulateRule ctxC1).week.weekOvertimeAccumulator =
      ctxC1.week.weekOvertimeAccumulator +
        (if ctxC1.isSunday then 0 else ctxC1.dayOvertimeMinutes)) ∧
    ((classifyAndAccumulateRule ctxC1).grand.total50Minutes =
      ctxC1.grand.total50Minutes + specTierCount ctxC1.isSunday ctxC1.nightCutoffMinutes
        (ctxC1.settings.weeklyLimit * 60) ctxC1.dayEndMinutes ctxC1.dayOvertimeMinutes
        ctxC1.week.weekOvertimeAccumulator 0 .R50) ∧
    ((classifyAndAccumulateRule ctxC1).grand.total75Minutes =
      ctxC1.grand.total75Minutes + specTierCount ctxC1.isSunday ctxC1.nightCutoffMinutes
        (ctxC1.settings.weeklyLimit * 60) ctxC1.dayEndMinutes ctxC1.dayOvertimeMinutes
        ctxC1.week.weekOvertimeAccumulator 0 .R75) ∧
    ((classifyAndAccumulateRule ctxC1).grand.total100Minutes =
      ctxC1.grand.total100Minutes + specTierCount ctxC1.isSunday ctxC1.nightCutoffMinutes
        (ctxC1.settings.weeklyLimit * 60) ctxC1.dayEndMinutes ctxC1.dayOvertimeMinutes
        ctxC1.week.weekOvertimeAccumulator 0 .R100) ∧
    ((classifyAndAccumulateRule ctxC1).grand.total125Minutes =
      ctxC1.grand.total125Minutes + specTierCount ctxC1.isSunday ctxC1.nightCutoffMinutes
        (ctxC1.settings.weeklyLimit * 60) ctxC1.dayEndMinutes ctxC1.dayOvertimeMinutes
        ctxC1.week.weekOvertimeAccumulator 0 .R125) ∧
    ((classifyAndAccumulateRule ctxC1).grand.totalBancoHoras = ctxC1.grand.totalBancoHoras)) :=
  ⟨by decide, claim_C1 ctxC1 (by decide) (by decide)⟩

/-- Sundays never produce tier-50 or tier-75 minutes in the spec count. -/
theorem specTierCount_sunday_5075 (cutoff cap dayEnd n acc0 p0 : ℕ) :
    specTierCount true cutoff cap dayEnd n acc0 p0 .R50 = 0 ∧
    specTierCount true cutoff cap dayEnd n acc0 p0 .R75 = 0 := by
  constructor <;>
    · unfold specTierCount
      rw [List.countP_eq_zero]
      intro p _
      rcases hb : specNightMinute (minuteOfDayFloorAt dayEnd (p0 + p)) cutoff <;>
        simp [specMinuteTier, hb]

/-- Once the accumulator is at or above a positive cap, no walked
non-Sunday minute counts toward tier-50 or tier-75. -/
theorem specTierCount_capped_5075 (cutoff cap dayEnd n acc0 p0 : ℕ)
    (hcap : 0 < cap) (hacc : cap ≤ acc0) :
    specTierCount false cutoff cap dayEnd n acc0 p0 .R50 = 0 ∧
    specTierCount false cutoff cap dayEnd n acc0 p0 .R75 = 0 := by
  constructor <;>
    · unfold specTierCount
      rw [List.countP_eq_zero]
      intro p _
      have hcond : ¬(cap = 0 ∨ acc0 + p < cap) := by omega
      rcases hb : specNightMinute (minuteOfDayFloorAt dayEnd (p0 + p)) cutoff <;>
        simp [specMinuteTier, hb, hcond]

/-- Once a positive weekly cap has been reached, one day's classification
adds no tier-50/75 minutes and never lowers the accumulator. -/
theorem classifyAndAccumulateRule_capped (ctx : DayRuleContext)
    (hC : 0 < ctx.settings.weeklyLimit)
    (hacc : ctx.settings.weeklyLimit * 60 ≤ ctx.week.weekOvertimeAccumulator) :
    (classifyAndAccumulateRule ctx).week.total50Minutes = ctx.week.total50Minutes ∧
    (classifyAndAccumulateRule ctx).week.total75Minutes = ctx.week.total75Minutes ∧
    (classifyAndAccumulateRule ctx).grand.total50Minutes = ctx.grand.total50Minutes ∧
    (classifyAndAccumulateRule ctx).grand.total75Minutes = ctx.grand.total75Minutes ∧
    ctx.settings.weeklyLimit * 60 ≤
      (classifyAndAccumulateRule ctx).week.weekOvertimeAccumulator := by
  unfold classifyAndAccumulateRule
  split_ifs with h1 h2
  · exact ⟨rfl, rfl, rfl, rfl, hacc⟩
  · exact ⟨rfl, rfl, rfl, rfl, hacc⟩
  · cases hsun : ctx.isSunday
    · rw [classifyLoop_spec]
      have hz := specTierCount_capped_5075 ctx.nightCutoffMinutes
        (ctx.settings.weeklyLimit * 60) ctx.dayEndMinutes ctx.dayOvertimeMinutes
        ctx.week.weekOvertimeAccumulator 0 (by omega) hacc
      refine ⟨?_, ?_, ?_, ?_, ?_⟩ <;> simp [hz.1, hz.2] <;> omega
    · rw [classifyLoop_spec]
      have hz := specTierCount_sunday_5075 ctx.nightCutoffMinutes
        (ctx.settings.weeklyLimit * 60) ctx.dayEndMinutes ctx.dayOvertimeMinutes
        ctx.week.weekOvertimeAccumulator 0
      refine ⟨?_, ?_, ?_, ?_, ?_⟩ <;> simp [hz.1, hz.2] <;> omega

/-- One week-entry step of the engine neither adds tier-50/75 minutes nor
lowers the accumulator once a positive weekly cap has been reached. -/
theorem processWeekEntry_capped (settings : Settings) (nightCutoff : ℕ)
    (hC : 0 < settings.weeklyLimit) (st : WeekContext × MutableTotals) (entry : TimeEntry)
    (hacc : settings.weeklyLimit * 60 ≤ st.1.weekOvertimeAccumulator) :
    (processWeekEntry settings nightCutoff st entry).1.total50Minutes = st.1.total50Minutes ∧
    (processWeekEntry settings nightCutoff st entry).1.total75Minutes = st.1.total75Minutes ∧
    (processWeekEntry settings nightCutoff st entry).2.total50Minutes = st.2.total50Minutes ∧
    (processWeekEntry settings nightCutoff st entry).2.total75Minutes = st.2.total75Minutes ∧
    settings.weeklyLimit * 60 ≤
      (processWeekEntry settings nightCutoff st entry).1.weekOvertimeAccumulator :=
  classifyAndAccumulateRule_capped
    (computeDayOvertimeRule (computeWorkedTimeRule (resolveJourneyRule {
      entry := entry
      settings := settings
      nightCutoffMinutes := nightCutoff
      week := st.1
      grand := st.2
      isSunday := if isValidDate entry.date then decide (getDayJS entry.date = 0) else false
      isOvertimeCardEntry := entry.isOvertimeCard }))) hC hacc

/-- Claim C6: with a fixed weekly cap `C > 0`, once the week's overtime
accumulator has reached `C × 60` minutes, no subsequent non-Sunday
overtime minute of that week is classified tier-50 or tier-75 — neither
within the rest of a day's classification loop (first part) nor across the
remaining days the engine processes in that week (second part, where
Sunday days only ever produce tier-100/125). -/
theorem claim_C6 (C : ℕ) (hC : 0 < C) :
    (∀ (cutoff dayEnd k processed : ℕ) (st : ClassifyState),
      C * 60 ≤ st.week.weekOvertimeAccumulator →
        (classifyLoop false cutoff C dayEnd k processed st).week.total50Minutes =
            st.week.total50Minutes ∧
        (classifyLoop false cutoff C dayEnd k processed st).week.total75Minutes =
            st.week.total75Minutes ∧
        (classifyLoop false cutoff C dayEnd k processed st).grand.total50Minutes =
            st.grand.total50Minutes ∧
        (classifyLoop false cutoff C dayEnd k processed st).grand.total75Minutes =
            st.grand.total75Minutes) ∧
    (∀ (settings : Settings) (nightCutoff : ℕ) (entries : List TimeEntry)
        (st : WeekContext × MutableTotals),
      settings.weeklyLimit = C →
      C * 60 ≤ st.1.weekOvertimeAccumulator →
        (entries.foldl (processWeekEntry settings nightCutoff) st).1.total50Minutes =
            st.1.total50Minutes ∧
        (entries.foldl (processWeekEntry settings nightCutoff) st).1.total75Minutes =
            st.1.total75Minutes ∧
        (entries.foldl (processWeekEntry settings nightCutoff) st).2.total50Minutes =
            st.2.total50Minutes ∧
        (entries.foldl (processWeekEntry settings nightCutoff) st).2.total75Minutes =
            st.2.total75Minutes) := by
  constructor
  · intro cutoff dayEnd k processed st hacc
    rw [classifyLoop_spec]
    have hz := specTierCount_capped_5075 cutoff (C * 60) dayEnd k
      st.week.weekOvertimeAccumulator processed (by omega) hacc
    exact ⟨by simp [hz.1], by simp [hz.2], by simp [hz.1], by simp [hz.2]⟩
  · intro settings nightCutoff entries
    induction entries with
    | nil =>
      intro st h1 h2
      exact ⟨rfl, rfl, rfl, rfl⟩
    | cons e rest ih =>
      intro st hCw hacc
      have hp := processWeekEntry_capped settings nightCutoff (by omega) st e (by omega)
      have hrest := ih (processWeekEntry settings nightCutoff st e) hCw (by omega)
      simp only [List.foldl_cons]
      refine ⟨?_, ?_, ?_, ?_⟩ <;> omega

/-- Mid-week state with the one-hour cap already consumed. -/
def stC6 : ClassifyState := { week := { weekOvertimeAccumulator := 60 }, grand := {} }

/-- Witness for claim C6: cap 1 hour, accumulator already at 60, five
more non-Sunday minutes before 23:00 — none lands in tier-50/75. -/
theorem claim_C6_witness :
    (0 < 1 ∧ 1 * 60 ≤ stC6.week.weekOvertimeAccumulator) ∧
    ((classifyLoop false 1320 1 1380 5 0 stC6).week.total50Minutes =
        stC6.week.total50Minutes ∧
      (classifyLoop false 1320 1 1380 5 0 stC6).week.total75Minutes =
        stC6.week.total75Minutes ∧
      (classifyLoop false 1320 1 1380 5 0 stC6).grand.total50Minutes =
        stC6.grand.total50Minutes ∧
      (classifyLoop false 1320 1 1380 5 0 stC6).grand.total75Minutes =
        stC6.grand.total75Minutes) :=
  ⟨by decide, (claim_C6 1 (by decide)).1 1320 1380 5 0 stC6 (by decide)⟩

/-- The allocator never applies more minutes than requested. -/
theorem allocateTypeMinutes_applied_le (dayPlans : List DayPlan) (targetType : RateType)
    (targetMinutes : ℕ) (weekAccumulator : AccMap) (wl nc : ℕ) (so nso : Bool) :
    (allocateTypeMinutes dayPlans targetType targetMinutes weekAccumulator wl nc so nso).2.2
      ≤ targetMinutes := by
  simp only [allocateTypeMinutes]
  omega

/-- A plan's segment application emits either no warning or the
consolidation warning for that plan's row. -/
theorem applySegmentsForPlan_warning (plan : DayPlan) :
    (applySegmentsForPlan plan).2 = none ∨
    (applySegmentsForPlan plan).2 = some (consolidationWarningText plan.row.day) := by
  simp only [applySegmentsForPlan]
  split_ifs <;> simp

/-- Every warning the segment-application fold appends is a consolidation
warning. -/
theorem applySegments_foldl_warnings (plans : List DayPlan) :
    ∀ (init : List CardRow × List JsStr) (w : JsStr),
      w ∈ (plans.foldl (fun acc plan =>
        let r := applySegmentsForPlan plan
        (acc.1.set plan.idx r.1, acc.2 ++ r.2.toList)) init).2 →
      w ∈ init.2 ∨ ∃ s, w = consolidationWarningText s := by
  induction plans with
  | nil =>
    intro init w h
    exact Or.inl h
  | cons p rest ih =>
    intro init w h
    rcases ih _ w h with h1 | h2
    · rcases List.mem_append.mp h1 with ha | hb
      · exact Or.inl ha
      · right
        rcases applySegmentsForPlan_warning p with hw | hw <;> rw [hw] at hb
        · simp at hb
        · simp at hb
          exact ⟨p.row.day, hb⟩
    · exact Or.inr h2

/-- Every warning of `applySegmentsToRows` is a consolidation warning. -/
theorem applySegmentsToRows_warnings (plans : List DayPlan) (rows : List CardRow) (w : JsStr) :
    w ∈ (applySegmentsToRows plans rows).2 → ∃ s, w = consolidationWarningText s := by
  intro h
  rcases applySegments_foldl_warnings plans (rows, []) w h with h1 | h2
  · simp at h1
  · exact h2

/-- Two character lists differing at one position are different. -/
theorem listNe_of_getElem (k : ℕ) {l1 l2 : JsStr} {c1 c2 : Char}
    (h1 : l1[k]? = some c1) (h2 : l2[k]? = some c2) (hne : c1 ≠ c2) : l1 ≠ l2 := by
  intro h
  rw [h] at h1
  rw [h2] at h1
  exact hne (Option.some.inj h1).symm

/-- Membership in an optional singleton list. -/
theorem mem_ite_singleton {c : Prop} [Decidable c] {w x : JsStr} :
    (w ∈ (if c then [x] else [])) ↔ c ∧ w = x := by
  split_ifs with h <;> simp [h]

/-- Membership in the tier-shortfall warning list, spelled out. -/
theorem mem_projTierWarnings (referenceMonth : JsStr) (settings : Settings)
    (parsed : ParsedHolerithData) (w : JsStr) :
    w ∈ projTierWarnings referenceMonth settings parsed ↔
      (0 < parsed.he50Minutes -
          (projApplied referenceMonth settings parsed).he50MinutesApplied ∧
        w = tierWarningText50 (parsed.he50Minutes -
          (projApplied referenceMonth settings parsed).he50MinutesApplied)) ∨
      (0 < parsed.he75Minutes -
          (projApplied referenceMonth settings parsed).he75MinutesApplied ∧
        w = tierWarningText75 (parsed.he75Minutes -
          (projApplied referenceMonth settings parsed).he75MinutesApplied)) ∨
      (0 < parsed.he100Minutes -
          (projApplied referenceMonth settings parsed).he100MinutesApplied ∧
        w = tierWarningText100 (parsed.he100Minutes -
          (projApplied referenceMonth settings parsed).he100MinutesApplied)) ∨
      (0 < parsed.he125Minutes -
          (projApplied referenceMonth settings parsed).he125MinutesApplied ∧
        w = tierWarningText125 (parsed.he125Minutes -
          (projApplied referenceMonth settings parsed).he125MinutesApplied)) := by
  unfold projTierWarnings
  generalize parsed.he50Minutes -
    (projApplied referenceMonth settings parsed).he50MinutesApplied = m50
  generalize parsed.he75Minutes -
    (projApplied referenceMonth settings parsed).he75MinutesApplied = m75
  generalize parsed.he100Minutes -
    (projApplied referenceMonth settings parsed).he100MinutesApplied = m100
  generalize parsed.he125Minutes -
    (projApplied referenceMonth settings parsed).he125MinutesApplied = m125
  simp only [List.mem_append, mem_ite_singleton, List.mem_singleton]
  tauto

/-- Tier-50 and tier-75 warnings differ in their tier digits. -/
theorem tier50_ne_tier75 (a b : ℕ) : tierWarningText50 a ≠ tierWarningText75 b :=
  listNe_of_getElem 3 (show (tierWarningText50 a)[3]? = some '5' from rfl)
    (show (tierWarningText75 b)[3]? = some '7' from rfl) (by decide)

/-- Tier-50 and tier-100 warnings differ in their tier digits. -/
theorem tier50_ne_tier100 (a b : ℕ) : tierWarningText50 a ≠ tierWarningText100 b :=
  listNe_of_getElem 3 (show (tierWarningText50 a)[3]? = some '5' from rfl)
    (show (tierWarningText100 b)[3]? = some '1' from rfl) (by decide)

/-- Tier-50 and tier-125 warnings differ in their tier digits. -/
theorem tier50_ne_tier125 (a b : ℕ) : tierWarningText50 a ≠ tierWarningText125 b :=
  listNe_of_getElem 3 (show (tierWarningText50 a)[3]? = some '5' from rfl)
    (show (tierWarningText125 b)[3]? = some '1' from rfl) (by decide)

/-- Tier-75 and tier-100 warnings differ in their tier digits. -/
theorem tier75_ne_tier100 (a b : ℕ) : tierWarningText75 a ≠ tierWarningText100 b :=
  listNe_of_getElem 3 (show (tierWarningText75 a)[3]? = some '7' from rfl)
    (show (tierWarningText100 b)[3]? = some '1' from rfl) (by decide)

/-- Tier-75 and tier-125 warnings differ in their tier digits. -/
theorem tier75_ne_tier125 (a b : ℕ) : tierWarningText75 a ≠ tierWarningText125 b :=
  listNe_of_getElem 3 (show (tierWarningText75 a)[3]? = some '7' from rfl)
    (show (tierWarningText125 b)[3]? = some '1' from rfl) (by decide)

/-- Tier-100 and tier-125 warnings differ in their tier digits. -/
theorem tier100_ne_tier125 (a b : ℕ) : tierWarningText100 a ≠ tierWarningText125 b :=
  listNe_of_getElem 4 (show (tierWarningText100 a)[4]? = some '0' from rfl)
    (show (tierWarningText125 b)[4]? = some '2' from rfl) (by decide)

/-- No tier warning is the lateness warning. -/
theorem tier50_ne_atraso (a b : ℕ) : tierWarningText50 a ≠ atrasoWarningText b :=
  listNe_of_getElem 0 (show (tierWarningText50 a)[0]? = some 'H' from rfl)
    (show (atrasoWarningText b)[0]? = some 'N' from rfl) (by decide)

/-- No tier-75 warning is the lateness warning. -/
theorem tier75_ne_atraso (a b : ℕ) : tierWarningText75 a ≠ atrasoWarningText b :=
  listNe_of_getElem 0 (show (tierWarningText75 a)[0]? = some 'H' from rfl)
    (show (atrasoWarningText b)[0]? = some 'N' from rfl) (by decide)

/-- No tier-100 warning is the lateness warning. -/
theorem tier100_ne_atraso (a b : ℕ) : tierWarningText100 a ≠ atrasoWarningText b :=
  listNe_of_getElem 0 (show (tierWarningText100 a)[0]? = some 'H' from rfl)
    (show (atrasoWarningText b)[0]? = some 'N' from rfl) (by decide)

/-- No tier-125 warning is the lateness warning. -/
theorem tier125_ne_atraso (a b : ℕ) : tierWarningText125 a ≠ atrasoWarningText b :=
  listNe_of_getElem 0 (show (tierWarningText125 a)[0]? = some 'H' from rfl)
    (show (atrasoWarningText b)[0]? = some 'N' from rfl) (by decide)

/-- No tier-50 warning is a consolidation warning. -/
theorem tier50_ne_cons (a : ℕ) (s : JsStr) :
    tierWarningText50 a ≠ consolidationWarningText s :=
  listNe_of_getElem 0 (show (tierWarningText50 a)[0]? = some 'H' from rfl)
    (show (consolidationWarningText s)[0]? = some 'D' from rfl) (by decide)

/-- No tier-75 warning is a consolidation warning. -/
theorem tier75_ne_cons (a : ℕ) (s : JsStr) :
    tierWarningText75 a ≠ consolidationWarningText s :=
  listNe_of_getElem 0 (show (tierWarningText75 a)[0]? = some 'H' from rfl)
    (show (consolidationWarningText s)[0]? = some 'D' from rfl) (by decide)

/-- No tier-100 warning is a consolidation warning. -/
theorem tier100_ne_cons (a : ℕ) (s : JsStr) :
    tierWarningText100 a ≠ consolidationWarningText s :=
  listNe_of_getElem 0 (show (tierWarningText100 a)[0]? = some 'H' from rfl)
    (show (consolidationWarningText s)[0]? = some 'D' from rfl) (by decide)

/-- No tier-125 warning is a consolidation warning. -/
theorem tier125_ne_cons (a : ℕ) (s : JsStr) :
    tierWarningText125 a ≠ consolidationWarningText s :=
  listNe_of_getElem 0 (show (tierWarningText125 a)[0]? = some 'H' from rfl)
    (show (consolidationWarningText s)[0]? = some 'D' from rfl) (by decide)

/-- Every warning of the projection is the lateness warning, a tier
shortfall warning, or a consolidation warning. -/
theorem warnings_mem_cases (referenceMonth : JsStr) (settings : Settings)
    (parsed : ParsedHolerithData) (w : JsStr)
    (h : w ∈ (buildProjectedCardFromHolerith referenceMonth settings parsed).warnings) :
    (0 < (projAtraso referenceMonth settings parsed).2.1 ∧
      w = atrasoWarningText (projAtraso referenceMonth settings parsed).2.1) ∨
    w ∈ projTierWarnings referenceMonth settings parsed ∨
    (∃ s, w = consolidationWarningText s) := by
  rcases List.mem_append.mp h with hAT | hC
  · rcases List.mem_append.mp hAT with hA | hT
    · exact Or.inl (mem_ite_singleton.mp hA)
    · exact Or.inr (Or.inl hT)
  · exact Or.inr (Or.inr (applySegmentsToRows_warnings _ _ _ hC))

/-- Claim C8: for every projection request and tier, the applied minutes
never exceed the requested minutes, the allocator always returns a result
(it is a total function — window exhaustion leaves minutes unallocated
rather than throwing), and the warning stating the exact per-tier
shortfall is present if and only if the applied minutes fall short of the
request. -/
theorem claim_C8 (referenceMonth : JsStr) (settings : Settings)
    (parsed : ParsedHolerithData) :
    ((buildProjectedCardFromHolerith referenceMonth settings parsed).summary.he50MinutesApplied
        ≤ parsed.he50Minutes) ∧
    ((buildProjectedCardFromHolerith referenceMonth settings parsed).summary.he75MinutesApplied
        ≤ parsed.he75Minutes) ∧
    ((buildProjectedCardFromHolerith referenceMonth settings parsed).summary.he100MinutesApplied
        ≤ parsed.he100Minutes) ∧
    ((buildProjectedCardFromHolerith referenceMonth settings parsed).summary.he125MinutesApplied
        ≤ parsed.he125Minutes) ∧
    ((tierWarningText50 (parsed.he50Minutes -
        (buildProjectedCardFromHolerith referenceMonth settings parsed).summary.he50MinutesApplied)
        ∈ (buildProjectedCardFromHolerith referenceMonth settings parsed).warnings ↔
      (buildProjectedCardFromHolerith referenceMonth settings parsed).summary.he50MinutesApplied
        < parsed.he50Minutes)) ∧
    ((tierWarningText75 (parsed.he75Minutes -
        (buildProjectedCardFromHolerith referenceMonth settings parsed).summary.he75MinutesApplied)
        ∈ (buildProjectedCardFromHolerith referenceMonth settings parsed).warnings ↔
      (buildProjectedCardFromHolerith referenceMonth settings parsed).summary.he75MinutesApplied
        < parsed.he75Minutes)) ∧
    ((tierWarningText100 (parsed.he100Minutes -
        (buildProjectedCardFromHolerith referenceMonth settings parsed).summary.he100MinutesApplied)
        ∈ (buildProjectedCardFromHolerith referenceMonth settings parsed).warnings ↔
      (buildProjectedCardFromHolerith referenceMonth settings parsed).summary.he100MinutesApplied
        < parsed.he100Minutes)) ∧
    ((tierWarningText125 (parsed.he125Minutes -
        (buildProjectedCardFromHolerith referenceMonth settings parsed).summary.he125MinutesApplied)
        ∈ (buildProjectedCardFromHolerith referenceMonth settings parsed).warnings ↔
      (buildProjectedCardFromHolerith referenceMonth settings parsed).summary.he125MinutesApplied
        < parsed.he125Minutes)) := by
  have hsum : (buildProjectedCardFromHolerith referenceMonth settings parsed).summary
      = projApplied referenceMonth settings parsed := rfl
  rw [hsum]
  have b50 : (projApplied referenceMonth settings parsed).he50MinutesApplied
      ≤ parsed.he50Minutes := by
    show (projA50 referenceMonth settings parsed).2.2 ≤ _
    simp only [projA50]
    exact allocateTypeMinutes_applied_le _ _ _ _ _ _ _ _
  have b75 : (projApplied referenceMonth settings parsed).he75MinutesApplied
      ≤ parsed.he75Minutes := by
    show (projA75 referenceMonth settings parsed).2.2 ≤ _
    simp only [projA75]
    exact allocateTypeMinutes_applied_le _ _ _ _ _ _ _ _
  have bs100 : (projS100 referenceMonth settings parsed).2.2 ≤ parsed.he100Minutes := by
    simp only [projS100]
    exact allocateTypeMinutes_applied_le _ _ _ _ _ _ _ _
  have bn100 : (projN100 referenceMonth settings parsed).2.2 ≤
      parsed.he100Minutes - (projS100 referenceMonth settings parsed).2.2 := by
    simp only [projN100]
    exact allocateTypeMinutes_applied_le _ _ _ _ _ _ _ _
  have b100 : (projApplied referenceMonth settings parsed).he100MinutesApplied
      ≤ parsed.he100Minutes := by
    show (projS100 referenceMonth settings parsed).2.2
      + (projN100 referenceMonth settings parsed).2.2 ≤ _
    omega
  have bs125 : (projS125 referenceMonth settings parsed).2.2 ≤ parsed.he125Minutes := by
    simp only [projS125]
    exact allocateTypeMinutes_applied_le _ _ _ _ _ _ _ _
  have bn125 : (projN125 referenceMonth settings parsed).2.2 ≤
      parsed.he125Minutes - (projS125 referenceMonth settings parsed).2.2 := by
    simp only [projN125]
    exact allocateTypeMinutes_applied_le _ _ _ _ _ _ _ _
  have b125 : (projApplied referenceMonth settings parsed).he125MinutesApplied
      ≤ parsed.he125Minutes := by
    show (projS125 referenceMonth settings parsed).2.2
      + (projN125 referenceMonth settings parsed).2.2 ≤ _
    omega
  have hmemT : ∀ w, w ∈ projTierWarnings referenceMonth settings parsed →
      w ∈ (buildProjectedCardFromHolerith referenceMonth settings parsed).warnings := by
    intro w hw
    exact List.mem_append.mpr (Or.inl (List.mem_append.mpr (Or.inr hw)))
  refine ⟨b50, b75, b100, b125, ⟨?_, ?_⟩, ⟨?_, ?_⟩, ⟨?_, ?_⟩, ⟨?_, ?_⟩⟩
  · intro h
    rcases warnings_mem_cases _ _ _ _ h with ⟨_, heq⟩ | hT | ⟨s, heq⟩
    · exact absurd heq (tier50_ne_atraso _ _)
    · rcases (mem_projTierWarnings _ _ _ _).mp hT with ⟨hpos, _⟩ | ⟨_, heq⟩ | ⟨_, heq⟩ | ⟨_, heq⟩
      · omega
      · exact absurd heq (tier50_ne_tier75 _ _)
      · exact absurd heq (tier50_ne_tier100 _ _)
      · exact absurd heq (tier50_ne_tier125 _ _)
    · exact absurd heq (tier50_ne_cons _ _)
  · intro hlt
    exact hmemT _ ((mem_projTierWarnings _ _ _ _).mpr (Or.inl ⟨by omega, rfl⟩))
  · intro h
    rcases warnings_mem_cases _ _ _ _ h with ⟨_, heq⟩ | hT | ⟨s, heq⟩
    · exact absurd heq (tier75_ne_atraso _ _)
    · rcases (mem_projTierWarnings _ _ _ _).mp hT with ⟨_, heq⟩ | ⟨hpos, _⟩ | ⟨_, heq⟩ | ⟨_, heq⟩
      · exact absurd heq.symm (tier50_ne_tier75 _ _)
      · omega
      · exact absurd heq (tier75_ne_tier100 _ _)
      · exact absurd heq (tier75_ne_tier125 _ _)
    · exact absurd heq (tier75_ne_cons _ _)
  · intro hlt
    exact hmemT _ ((mem_projTierWarnings _ _ _ _).mpr (Or.inr (Or.inl ⟨by omega, rfl⟩)))
  · intro h
    rcases warnings_mem_cases _ _ _ _ h with ⟨_, heq⟩ | hT | ⟨s, heq⟩
    · exact absurd heq (tier100_ne_atraso _ _)
    · rcases (mem_projTierWarnings _ _ _ _).mp hT with ⟨_, heq⟩ | ⟨_, heq⟩ | ⟨hpos, _⟩ | ⟨_, heq⟩
      · exact absurd heq.symm (tier50_ne_tier100 _ _)
      · exact absurd heq.symm (tier75_ne_tier100 _ _)
      · omega
      · exact absurd heq (tier100_ne_tier125 _ _)
    · exact absurd heq (tier100_ne_cons _ _)
  · intro hlt
    exact hmemT _ ((mem_projTierWarnings _ _ _ _).mpr (Or.inr (Or.inr (Or.inl ⟨by omega, rfl⟩))))
  · intro h
    rcases warnings_mem_cases _ _ _ _ h with ⟨_, heq⟩ | hT | ⟨s, heq⟩
    · exact absurd heq (tier125_ne_atraso _ _)
    · rcases (mem_projTierWarnings _ _ _ _).mp hT with ⟨_, heq⟩ | ⟨_, heq⟩ | ⟨_, heq⟩ | ⟨hpos, _⟩
      · exact absurd heq.symm (tier50_ne_tier125 _ _)
      · exact absurd heq.symm (tier75_ne_tier125 _ _)
      · exact absurd heq.symm (tier100_ne_tier125 _ _)
      · omega
    · exact absurd heq (tier125_ne_cons _ _)
  · intro hlt
    exact hmemT _ ((mem_projTierWarnings _ _ _ _).mpr (Or.inr (Or.inr (Or.inr ⟨by omega, rfl⟩))))

/-- Settings used in the C3 instances: weekday window 06:00–14:00 with
09:00–10:00 lunch, Saturday 12:00–16:00, night cutoff 22:00, unlimited
weekly cap, cycle start day 1, no Saturday compensation, 7 h daily
journey. -/
def settingsC3 : Settings := {
  dailyJourney := 7
  weeklyLimit := 0
  nightCutoff := ("22:00").data
  saturdayCompensation := false
  compDays := []
  cycleStartDay := 1
  workStart := ("06:00").data
  lunchStart := ("09:00").data
  lunchEnd := ("10:00").data
  workEnd := ("14:00").data
  saturdayWorkStart := ("12:00").data
  saturdayWorkEnd := ("16:00").data }

/-- C3 request: 420 tier-50 minutes and 60 tier-75 minutes. -/
def parsedC3 : ParsedHolerithData := { he50Minutes := 420, he75Minutes := 60 }

/-- The projection of `parsedC3` over June 2026. -/
def projC3 : ProjectedCardFromHolerith :=
  buildProjectedCardFromHolerith (("2026-06").data) settingsC3 parsedC3

/-- Single-tier C3 request: 120 tier-50 minutes only. -/
def parsedC3b : ParsedHolerithData := { he50Minutes := 120 }

/-- The projection of `parsedC3b` over June 2026. -/
def projC3b : ProjectedCardFromHolerith :=
  buildProjectedCardFromHolerith (("2026-06").data) settingsC3 parsedC3b

/-- Counterexample to claim C3: projecting 420 tier-50 and 60 tier-75
minutes over June 2026 emits no warning (so the claim demands the
re-classified totals equal the request per tier), and the allocator itself
reports all 480 minutes applied, yet re-classifying the projected card
through the overtime classifier yields 480 tier-50 minutes and 0 tier-75
minutes: the allocator books the 60 "night" tier-75 minutes into slots
that lie before the 22:00 night cutoff, and the classifier, which derives
the tier from the punch times alone, reads them back as day-time
tier-50. -/
theorem claim_C3_counterexample :
    projC3.warnings = [] ∧
    projC3.summary.he50MinutesApplied = 420 ∧
    projC3.summary.he75MinutesApplied = 60 ∧
    (reclassifyProjection projC3 settingsC3).grandTotal50Minutes = 480 ∧
    (reclassifyProjection projC3 settingsC3).grandTotal75Minutes = 0 := by
  refine ⟨by decide, by decide, by decide, by decide, by decide⟩

/-- Amended claim C3: the round-trip guarantee holds at the allocator's
own ledger — per tier, when the projection emits no warnings the reported
applied minutes equal the requested minutes — but re-classifying the
projected card through the overtime classifier reproduces the request only
in restricted instances, because the classifier re-derives each minute's
tier from the punch times alone; a single-tier day-time request such as
120 tier-50 minutes over June 2026 does round-trip exactly. -/
theorem claim_C3_amended :
    (∀ (referenceMonth : JsStr) (settings : Settings) (parsed : ParsedHolerithData),
      (buildProjectedCardFromHolerith referenceMonth settings parsed).warnings = [] →
        (buildProjectedCardFromHolerith referenceMonth settings parsed).summary.he50MinutesApplied
            = parsed.he50Minutes ∧
        (buildProjectedCardFromHolerith referenceMonth settings parsed).summary.he75MinutesApplied
            = parsed.he75Minutes ∧
        (buildProjectedCardFromHolerith referenceMonth settings parsed).summary.he100MinutesApplied
            = parsed.he100Minutes ∧
        (buildProjectedCardFromHolerith referenceMonth settings parsed).summary.he125MinutesApplied
            = parsed.he125Minutes) ∧
    (projC3b.warnings = [] ∧
      (reclassifyProjection projC3b settingsC3).grandTotal50Minutes = parsedC3b.he50Minutes ∧
      (reclassifyProjection projC3b settingsC3).grandTotal75Minutes = 0 ∧
      (reclassifyProjection projC3b settingsC3).grandTotal100Minutes = 0 ∧
      (reclassifyProjection projC3b settingsC3).grandTotal125Minutes = 0) := by
  constructor
  · intro referenceMonth settings parsed hw
    have hsum : (buildProjectedCardFromHolerith referenceMonth settings parsed).summary
        = projApplied referenceMonth settings parsed := rfl
    rw [hsum]
    have hno : ∀ w, w ∈ projTierWarnings referenceMonth settings parsed → False := by
      intro w hw2
      have hmem : w ∈ (buildProjectedCardFromHolerith referenceMonth settings parsed).warnings :=
        List.mem_append.mpr (Or.inl (List.mem_append.mpr (Or.inr hw2)))
      rw [hw] at hmem
      exact absurd hmem (List.not_mem_nil w)
    have b50 : (projApplied referenceMonth settings parsed).he50MinutesApplied
        ≤ parsed.he50Minutes := by
      show (projA50 referenceMonth settings parsed).2.2 ≤ _
      simp only [projA50]
      exact allocateTypeMinutes_applied_le _ _ _ _ _ _ _ _
    have b75 : (projApplied referenceMonth settings parsed).he75MinutesApplied
        ≤ parsed.he75Minutes := by
      show (projA75 referenceMonth settings parsed).2.2 ≤ _
      simp only [projA75]
      exact allocateTypeMinutes_applied_le _ _ _ _ _ _ _ _
    have bs100 : (projS100 referenceMonth settings parsed).2.2 ≤ parsed.he100Minutes := by
      simp only [projS100]
      exact allocateTypeMinutes_applied_le _ _ _ _ _ _ _ _
    have bn100 : (projN100 referenceMonth settings parsed).2.2 ≤
        parsed.he100Minutes - (projS100 referenceMonth settings parsed).2.2 := by
      simp only [projN100]
      exact allocateTypeMinutes_applied_le _ _ _ _ _ _ _ _
    have b100 : (projApplied referenceMonth settings parsed).he100MinutesApplied
        ≤ parsed.he100Minutes := by
      show (projS100 referenceMonth settings parsed).2.2
        + (projN100 referenceMonth settings parsed).2.2 ≤ _
      omega
    have bs125 : (projS125 referenceMonth settings parsed).2.2 ≤ parsed.he125Minutes := by
      simp only [projS125]
      exact allocateTypeMinutes_applied_le _ _ _ _ _ _ _ _
    have bn125 : (projN125 referenceMonth settings parsed).2.2 ≤
        parsed.he125Minutes - (projS125 referenceMonth settings parsed).2.2 := by
      simp only [projN125]
      exact allocateTypeMinutes_applied_le _ _ _ _ _ _ _ _
    have b125 : (projApplied referenceMonth settings parsed).he125MinutesApplied
        ≤ parsed.he125Minutes := by
      show (projS125 referenceMonth settings parsed).2.2
        + (projN125 referenceMonth settings parsed).2.2 ≤ _
      omega
    refine ⟨?_, ?_, ?_, ?_⟩
    · by_contra hne
      exact hno _ ((mem_projTierWarnings _ _ _ _).mpr (Or.inl ⟨by omega, rfl⟩))
    · by_contra hne
      exact hno _ ((mem_projTierWarnings _ _ _ _).mpr (Or.inr (Or.inl ⟨by omega, rfl⟩)))
    · by_contra hne
      exact hno _ ((mem_projTierWarnings _ _ _ _).mpr (Or.inr (Or.inr (Or.inl ⟨by omega, rfl⟩))))
    · by_contra hne
      exact hno _ ((mem_projTierWarnings _ _ _ _).mpr (Or.inr (Or.inr (Or.inr ⟨by omega, rfl⟩))))
  · refine ⟨by decide, by decide, by decide, by decide, by decide⟩

end SmartPoint
